import Mathlib

/-!
# FELIX evaluators of Albany: a shallow embedding

The evaluators are C++ class templates over a scalar type (`ScalarT`,
`ParamScalarT`, ...: `double` or an automatic-differentiation type).  They are
embedded over an arbitrary linearly ordered field `α`; the library functions
`std::pow`, `std::exp` and `std::sqrt` are not code of the repository and are
passed in as a `ScalarFns α`.

Conventions of the embedding

* `PHX::MDField` is a function from the index tuple to the value; writing an
  entry is `MDField.set`.
* `for (int i=0; i<n; ++i)` is `forLoop n`, a range-based `for` over a vector
  is `forEach`.
* `TEUCHOS_TEST_FOR_EXCEPTION (cond, E, msg)` is `Except.error (E msg)` when
  `cond` holds; the message is the text given in the source.
* A `Teuchos::ParameterList` is a record of its entries.  In the lists handed
  to the constructors of `HydrologyWaterDischarge` and `BasalFrictionCoefficient`
  every entry is an `Option`, `none` when the list has no such entry: an entry
  read with `get<T>(name)` and absent makes Teuchos throw
  `Exceptions::InvalidParameterName` (`getEntry`), an entry read with a default
  value or guarded by `isParameter` takes the default.  In the other lists an
  entry read with `get<T>(name)` is a plain field (the entry is taken as
  present) and only the entries with a default are `Option`s.
* The Teuchos exception classes form a hierarchy: `InvalidParameterName` and
  `InvalidParameterValue` derive from `InvalidParameter`, and `InvalidParameter`
  and `NullReferenceError` derive from `std::logic_error` (`Exc.isInvalidParameter`,
  `Exc.isLogicError`).
* Printing to the output stream (and the `printed...` members that only
  throttle it) is not part of the embedding.
-/

set_option linter.unusedSectionVars false

namespace FELIX

/-! ## Framework types -/

/-- The exception classes thrown by the embedded code, with their message: the
class named in `TEUCHOS_TEST_FOR_EXCEPTION`, or the class Teuchos itself throws
(`InvalidParameterName` for an absent entry, `NullReferenceError` for `->` on a
null `RCP`). -/
inductive Exc where
  | logic_error (msg : String)
  | InvalidParameter (msg : String)
  | InvalidParameterValue (msg : String)
  | InvalidParameterName (msg : String)
  | NullReferenceError (msg : String)
  deriving DecidableEq, Repr

/-- The exception is caught by `catch (Teuchos::Exceptions::InvalidParameter&)`:
its class is `InvalidParameter` or derives from it. -/
def Exc.isInvalidParameter : Exc → Bool
  | .InvalidParameter _ => true
  | .InvalidParameterValue _ => true
  | .InvalidParameterName _ => true
  | .logic_error _ => false
  | .NullReferenceError _ => false

/-- The exception is caught by `catch (std::logic_error&)`: every class above is
`std::logic_error` or derives from it. -/
def Exc.isLogicError : Exc → Bool
  | .logic_error _ => true
  | .InvalidParameter _ => true
  | .InvalidParameterValue _ => true
  | .InvalidParameterName _ => true
  | .NullReferenceError _ => true

/-- The call `list.get<T>(name)` on an entry read without a default value: the
value of the entry, or `InvalidParameterName` when the list has no such entry;
the message names the entry. -/
def getEntry {T : Type} (name : String) (entry : Option T) : Except Exc T :=
  match entry with
  | some v => .ok v
  | none => .error (.InvalidParameterName name)

/-- The functions of the C++ standard library called by the kernels. -/
structure ScalarFns (α : Type) where
  pow : α → α → α
  exp : α → α
  sqrt : α → α

/-- A multi-dimensional field, indexed by the tuple of its indices. -/
abbrev MDField (α : Type) := List Nat → α

/-- The assignment `f(idx) = v`. -/
def MDField.set {α : Type} (f : MDField α) (idx : List Nat) (v : α) : MDField α :=
  fun j => if j = idx then v else f j

/-- The loop `for (int i=0; i<n; ++i) body`. -/
def forLoop {σ : Type} (n : Nat) (body : Nat → σ → σ) (s : σ) : σ :=
  (List.range n).foldl (fun acc i => body i acc) s

/-- The loop `for (auto const& x : xs) body`. -/
def forEach {σ ι : Type} (xs : List ι) (body : ι → σ → σ) (s : σ) : σ :=
  xs.foldl (fun acc x => body x acc) s

/-- The part of `Albany::SideStruct` the evaluators read. -/
structure SideStruct where
  elem_LID : Nat
  side_local_id : Nat
  deriving DecidableEq, Repr

/-- The part of `PHAL::Workset` the evaluators read; `sideSets` is the map from
side set name to its sides. -/
structure Workset where
  numCells : Nat
  sideSets : List (String × List SideStruct)

/-- The part of `Albany::Layouts` the constructors read: the flag and the
dimensions of the data layouts. -/
structure Layouts where
  isSideLayouts : Bool
  qp_scalar : List Nat
  qp_gradient : List Nat
  node_scalar : List Nat

/-- The call `layout->dimension(i)`. -/
def dimension (layout : List Nat) (i : Nat) : Nat := layout.getD i 0

/-! ## HydrologyWaterDischarge -/

/-- The sublist "FELIX Hydrology" as read by `HydrologyWaterDischarge`. -/
structure HydrologyList (α : Type) where
  /-- "Transmissivity" -/
  transmissivity : Option α
  /-- "Darcy Law: Water Thickness Exponent" -/
  waterThicknessExponent : Option α
  /-- "Darcy Law: Potential Gradient Norm Exponent" -/
  potentialGradientNormExponent : Option α
  /-- "Regularize With Continuation", default false -/
  regularizeWithContinuation : Option Bool

/-- The parameter list handed to the constructor of `HydrologyWaterDischarge`. -/
structure WaterDischargeParams (α : Type) where
  /-- "Hydraulic Potential Gradient Variable Name" -/
  gradPhiName : Option String
  /-- "Water Thickness Variable Name" -/
  hName : Option String
  /-- "Water Discharge Variable Name" -/
  qName : Option String
  /-- "Side Set Name" -/
  sideSetName : Option String
  /-- "Hydraulic Potential Gradient Norm Variable Name" -/
  gradPhiNormName : Option String
  /-- "Regularization Parameter Name" -/
  regularizationParamName : Option String
  /-- "FELIX Hydrology" -/
  hydrology : Option (HydrologyList α)

/-- The members of a constructed `HydrologyWaterDischarge` evaluator. -/
structure HydrologyWaterDischarge (α : Type) where
  sideSetName : String
  numQPs : Nat
  numDim : Nat
  k_0 : α
  alpha : α
  beta : α
  needsGradPhiNorm : Bool
  regularize : Bool
  dependentFields : List String
  evaluatedFields : List String

/-- The data of the fields of `HydrologyWaterDischarge`, as bound by
`postRegistrationSetup`. -/
structure WaterDischargeFields (α : Type) where
  gradPhi : MDField α
  h : MDField α
  gradPhiNorm : MDField α
  regularizationParam : MDField α
  q : MDField α

namespace HydrologyWaterDischarge

variable {α : Type} [LinearOrderedField α]

/-- The end of the constructor, from the comment "Setting parameters" on; the
arguments are the members and names settled before. -/
def setParameters (p : WaterDischargeParams α) (sideSetName : String) (numQPs numDim : Nat)
    (gradPhiName hName qName : String) : Except Exc (HydrologyWaterDischarge α) := do
  let deps0 := [gradPhiName, hName]
  let hydrology ← getEntry "FELIX Hydrology" p.hydrology
  let k_0 ← getEntry "Transmissivity" hydrology.transmissivity
  let alpha ← getEntry "Darcy Law: Water Thickness Exponent" hydrology.waterThicknessExponent
  let beta ← getEntry "Darcy Law: Potential Gradient Norm Exponent"
    hydrology.potentialGradientNormExponent
  if beta ≤ 1 then
    throw (.InvalidParameter
      "Error! 'Darcy Law: Potential Gradient Norm Exponent' must be larger than 1.0.\n")
  let needsGradPhiNorm := if beta = 2 then false else true
  let deps1 ←
    if needsGradPhiNorm then do
      let gradPhiNormName ←
        getEntry "Hydraulic Potential Gradient Norm Variable Name" p.gradPhiNormName
      pure (deps0 ++ [gradPhiNormName])
    else pure deps0
  let regularize := hydrology.regularizeWithContinuation.getD false
  let deps2 ←
    if regularize then do
      let regularizationParamName ←
        getEntry "Regularization Parameter Name" p.regularizationParamName
      pure (deps1 ++ [regularizationParamName])
    else pure deps1
  pure { sideSetName := sideSetName, numQPs := numQPs, numDim := numDim,
         k_0 := k_0, alpha := alpha, beta := beta,
         needsGradPhiNorm := needsGradPhiNorm, regularize := regularize,
         dependentFields := deps2, evaluatedFields := [qName] }

/-- The constructor `HydrologyWaterDischarge::HydrologyWaterDischarge`: the
member initialisers read the three field names, then the body runs. -/
def ctor (IsStokes : Bool) (p : WaterDischargeParams α) (dl : Layouts) :
    Except Exc (HydrologyWaterDischarge α) := do
  let gradPhiName ← getEntry "Hydraulic Potential Gradient Variable Name" p.gradPhiName
  let hName ← getEntry "Water Thickness Variable Name" p.hName
  let qName ← getEntry "Water Discharge Variable Name" p.qName
  if IsStokes && !dl.isSideLayouts then
    throw (.logic_error
      "Error! For coupling with StokesFO, the Layouts structure must be that of the basal side.\n")
  let sideSetName ← if IsStokes then getEntry "Side Set Name" p.sideSetName else pure ""
  let numQPs := if IsStokes then dimension dl.qp_gradient 2 else dimension dl.qp_gradient 1
  let numDim := if IsStokes then dimension dl.qp_gradient 3 else dimension dl.qp_gradient 2
  setParameters p sideSetName numQPs numDim gradPhiName hName qName

/-- The local `regularization` of the two evaluation routines. -/
def regularization (ev : HydrologyWaterDischarge α) (fd : WaterDischargeFields α) : α :=
  if ev.regularize then fd.regularizationParam [0] else 0

/-- The routine `HydrologyWaterDischarge::evaluateFieldsCell`; returns the field `q`. -/
def evaluateFieldsCell (fn : ScalarFns α) (ev : HydrologyWaterDischarge α) (workset : Workset)
    (fd : WaterDischargeFields α) : MDField α :=
  let regularization := regularization ev fd
  if ev.needsGradPhiNorm then
    let grad_norm_exponent := ev.beta - 2
    forLoop workset.numCells (fun cell =>
      forLoop ev.numQPs (fun qp =>
        forLoop ev.numDim (fun dim q =>
          q.set [cell, qp, dim]
            (-ev.k_0 * (fn.pow (fd.h [cell, qp]) ev.alpha + regularization)
              * fn.pow (fd.gradPhiNorm [cell, qp]) grad_norm_exponent
              * fd.gradPhi [cell, qp, dim])))) fd.q
  else
    forLoop workset.numCells (fun cell =>
      forLoop ev.numQPs (fun qp =>
        forLoop ev.numDim (fun dim q =>
          q.set [cell, qp, dim]
            (-ev.k_0 * (fn.pow (fd.h [cell, qp]) ev.alpha + regularization)
              * fd.gradPhi [cell, qp, dim])))) fd.q

/-- The routine `HydrologyWaterDischarge::evaluateFieldsSide`; returns the field `q`. -/
def evaluateFieldsSide (fn : ScalarFns α) (ev : HydrologyWaterDischarge α) (workset : Workset)
    (fd : WaterDischargeFields α) : MDField α :=
  match workset.sideSets.lookup ev.sideSetName with
  | none => fd.q
  | some sideSet =>
    let regularization := regularization ev fd
    forEach sideSet (fun it_side q =>
      let cell := it_side.elem_LID
      let side := it_side.side_local_id
      if ev.needsGradPhiNorm then
        let grad_norm_exponent := ev.beta - 2
        forLoop ev.numQPs (fun qp =>
          forLoop ev.numDim (fun dim q =>
            q.set [cell, side, qp, dim]
              (-ev.k_0 * (fn.pow (fd.h [cell, side, qp]) ev.alpha + regularization)
                * fn.pow (fd.gradPhiNorm [cell, side, qp]) grad_norm_exponent
                * fd.gradPhi [cell, side, qp, dim]))) q
      else
        forLoop ev.numQPs (fun qp =>
          forLoop ev.numDim (fun dim q =>
            q.set [cell, side, qp, dim]
              (-ev.k_0 * (fn.pow (fd.h [cell, side, qp]) ev.alpha + regularization)
                * fd.gradPhi [cell, side, qp, dim]))) q) fd.q

/-- The routine `HydrologyWaterDischarge::evaluateFields`; returns the field `q`. -/
def evaluateFields (IsStokes : Bool) (fn : ScalarFns α) (ev : HydrologyWaterDischarge α)
    (workset : Workset) (fd : WaterDischargeFields α) : MDField α :=
  if IsStokes then evaluateFieldsSide fn ev workset fd else evaluateFieldsCell fn ev workset fd

end HydrologyWaterDischarge

/-! ## EffectivePressure -/

/-- The sublist "FELIX Physical Parameters" as read by `EffectivePressure`. -/
structure PhysicsList (α : Type) where
  /-- "Ice Density", default 910 -/
  iceDensity : Option α
  /-- "Water Density", default 1000 -/
  waterDensity : Option α
  /-- "Gravity Acceleration", default 9.8 -/
  gravityAcceleration : Option α

/-- The parameter list handed to the constructor of `EffectivePressure`. -/
structure EffectivePressureParams (α : Type) where
  /-- "Ice Thickness Variable Name" -/
  HName : String
  /-- "Effective Pressure Variable Name" -/
  NName : String
  /-- "Side Set Name" -/
  sideSetName : String
  /-- "Parameter List" / "Regularize With Continuation", default false -/
  regularizeWithContinuation : Option Bool
  /-- "Parameter List" / "Regularization Parameter Name" -/
  regularizationParamName : String
  /-- "Surface Height Variable Name" -/
  z_sName : String
  /-- "Hydraulic Potential Variable Name" -/
  phiName : String
  /-- "FELIX Hydrology" / "Use Water Thickness In Effective Pressure Formula", default false -/
  useWaterThickness : Option Bool
  /-- "Water Thickness Variable Name" -/
  hName : String
  /-- "FELIX Physical Parameters" -/
  physics : PhysicsList α

/-- The members of an `EffectivePressure` evaluator. -/
structure EffectivePressure (α : Type) where
  regularized : Bool
  numNodes : Nat
  basalSideName : String
  use_h : Bool
  rho_i : α
  rho_w : α
  g : α
  dependentFields : List String
  evaluatedFields : List String

/-- The data of the fields of `EffectivePressure`. -/
structure EffectivePressureFields (α : Type) where
  H : MDField α
  z_s : MDField α
  phi : MDField α
  h : MDField α
  alphaParam : MDField α
  regularizationParam : MDField α
  N : MDField α

namespace EffectivePressure

variable {α : Type} [LinearOrderedField α]

/-- The constructor `EffectivePressure::EffectivePressure`.  `self` holds the
members before the body runs: `use_h` is assigned only when `Surrogate` is false. -/
def ctor (OnSide Surrogate : Bool) (p : EffectivePressureParams α) (dl : Layouts)
    (self : EffectivePressure α) : Except Exc (EffectivePressure α) :=
  let regularized := false
  let numNodes := dimension dl.node_scalar 1
  if OnSide && !dl.isSideLayouts then
    .error (.InvalidParameter
      "Error! The layout structure does not appear to be that of a side set.\n")
  else
    let basalSideName := if OnSide then p.sideSetName else self.basalSideName
    let numNodes := if OnSide then dimension dl.node_scalar 2 else numNodes
    let regularized := if Surrogate then p.regularizeWithContinuation.getD false else regularized
    let use_h := if Surrogate then self.use_h else p.useWaterThickness.getD false
    let deps :=
      if Surrogate then ["Hydraulic-Over-Hydrostatic Potential Ratio"]
      else if use_h then [p.phiName, p.z_sName, p.hName]
      else [p.phiName, p.z_sName]
    .ok { regularized := regularized, numNodes := numNodes, basalSideName := basalSideName,
          use_h := use_h,
          rho_i := p.physics.iceDensity.getD 910,
          rho_w := p.physics.waterDensity.getD 1000,
          g := p.physics.gravityAcceleration.getD (98 / 10),
          dependentFields := deps ++ [p.HName], evaluatedFields := [p.NName] }

/-- The local `alpha` of the surrogate branches. -/
def surrogateAlpha (fn : ScalarFns α) (ev : EffectivePressure α)
    (fd : EffectivePressureFields α) : α :=
  let alpha := fd.alphaParam [0]
  if ev.regularized then alpha * fn.sqrt (fd.regularizationParam [0]) else alpha

/-- The routine `EffectivePressure::evaluateFieldsSide`; returns the field `N`. -/
def evaluateFieldsSide (Surrogate : Bool) (fn : ScalarFns α) (ev : EffectivePressure α)
    (workset : Workset) (fd : EffectivePressureFields α) : MDField α :=
  match workset.sideSets.lookup ev.basalSideName with
  | none => fd.N
  | some sideSet =>
    if Surrogate then
      let alpha := surrogateAlpha fn ev fd
      forEach sideSet (fun iter_s =>
        let cell := iter_s.elem_LID
        let side := iter_s.side_local_id
        forLoop ev.numNodes (fun node N =>
          N.set [cell, side, node] ((1 - alpha) * ev.rho_i * ev.g * fd.H [cell, side, node])))
        fd.N
    else
      forEach sideSet (fun it =>
        let cell := it.elem_LID
        let side := it.side_local_id
        forLoop ev.numNodes (fun node N =>
          N.set [cell, side, node]
            (max (ev.rho_i * ev.g * fd.H [cell, side, node]
                  + ev.rho_w * ev.g * (fd.z_s [cell, side, node] - fd.H [cell, side, node])
                  - fd.phi [cell, side, node]) 0)))
        fd.N

/-- The routine `EffectivePressure::evaluateFieldsCell`; returns the field `N`. -/
def evaluateFieldsCell (Surrogate : Bool) (fn : ScalarFns α) (ev : EffectivePressure α)
    (workset : Workset) (fd : EffectivePressureFields α) : MDField α :=
  if Surrogate then
    let alpha := surrogateAlpha fn ev fd
    forLoop workset.numCells (fun cell =>
      forLoop ev.numNodes (fun node N =>
        N.set [cell, node] ((1 - alpha) * ev.rho_i * ev.g * fd.H [cell, node]))) fd.N
  else
    let zero : α := 0
    forLoop workset.numCells (fun cell =>
      forLoop ev.numNodes (fun node N =>
        N.set [cell, node]
          (ev.rho_i * ev.g * fd.H [cell, node]
            + ev.rho_w * ev.g * (fd.z_s [cell, node] - fd.H [cell, node])
            + (ev.rho_w * ev.g / 1000) * (if ev.use_h then fd.h [cell, node] else zero)
            - fd.phi [cell, node]))) fd.N

/-- The routine `EffectivePressure::evaluateFields`; returns the field `N`. -/
def evaluateFields (OnSide Surrogate : Bool) (fn : ScalarFns α) (ev : EffectivePressure α)
    (workset : Workset) (fd : EffectivePressureFields α) : MDField α :=
  if OnSide then evaluateFieldsSide Surrogate fn ev workset fd
  else evaluateFieldsCell Surrogate fn ev workset fd

end EffectivePressure

/-! ## BasalFrictionCoefficient -/

/-- The enumeration `BETA_TYPE`. -/
inductive BetaType where
  | GIVEN_CONSTANT
  | GIVEN_FIELD
  | EXP_GIVEN_FIELD
  | GAL_PROJ_EXP_GIVEN_FIELD
  | POWER_LAW
  | REGULARIZED_COULOMB
  deriving DecidableEq, Repr

/-- The sublist "Parameter List" (`beta_list`) of `BasalFrictionCoefficient`. -/
structure BetaList (α : Type) where
  /-- "Zero Beta On Floating Ice", default false -/
  zeroBetaOnFloatingIce : Option Bool
  /-- "Type", tested with `isParameter` -/
  type : Option String
  /-- "Constant Given Beta Value" -/
  constantGivenBetaValue : Option α
  /-- "Beta Given Variable Name" -/
  betaGivenVariableName : Option String
  /-- "Distributed Bed Roughness", default false -/
  distributedBedRoughness : Option Bool
  /-- "Use log scalar parameters", default false -/
  useLogScalarParameters : Option Bool

/-- The sublist "Stereographic Map". -/
structure StereographicMapList (α : Type) where
  /-- "Use Stereographic Map", default false -/
  useStereographicMap : Option Bool
  /-- "Earth Radius", default 6371 -/
  earthRadius : Option α
  /-- "X_0", default 0 -/
  X_0 : Option α
  /-- "Y_0", default 0 -/
  Y_0 : Option α

/-- The sublist "Physical Parameter List". -/
structure PhysicalParameterList (α : Type) where
  /-- "Ice Density" -/
  iceDensity : Option α
  /-- "Water Density" -/
  waterDensity : Option α

/-- The parameter list handed to the constructor of `BasalFrictionCoefficient`. -/
structure BasalFrictionParams (α : Type) where
  /-- "Parameter List" -/
  beta_list : Option (BetaList α)
  /-- "Side Set Name" -/
  sideSetName : Option String
  /-- "Nodal", tested with `isParameter` -/
  nodal : Option Bool
  /-- "Basal Friction Coefficient Variable Name" -/
  betaName : Option String
  /-- "BF Variable Name" -/
  BFName : Option String
  /-- "Effective Pressure Variable Name" -/
  NName : Option String
  /-- "Sliding Velocity Variable Name" -/
  u_normName : Option String
  /-- "Ice Softness Variable Name" -/
  ice_softnessName : Option String
  /-- "Bed Roughness Variable Name" -/
  lambdaFieldName : Option String
  /-- "Bed Topography Variable Name" -/
  bed_topoName : Option String
  /-- "Ice Thickness Variable Name" -/
  thicknessName : Option String
  /-- "Physical Parameter List" -/
  physicalParameterList : Option (PhysicalParameterList α)
  /-- "Stereographic Map" -/
  stereographicMapList : Option (StereographicMapList α)
  /-- "Coordinate Vector Variable Name" -/
  coordVecName : Option String

/-- The members of a `BasalFrictionCoefficient` evaluator. -/
structure BasalFrictionCoefficient (α : Type) where
  zero_on_floating : Bool
  basalSideName : String
  numQPs : Nat
  numNodes : Nat
  nodal : Bool
  beta_type : BetaType
  beta_given_val : α
  distributedLambda : Bool
  rho_i : α
  rho_w : α
  use_stereographic_map : Bool
  x_0 : α
  y_0 : α
  R2 : α
  logParameters : Bool
  dependentFields : List String
  evaluatedFields : List String

/-- The data of the fields of `BasalFrictionCoefficient`. -/
structure BasalFrictionFields (α : Type) where
  beta_given_field : MDField α
  BF : MDField α
  N : MDField α
  u_norm : MDField α
  ice_softness : MDField α
  lambdaField : MDField α
  bed_topo_field : MDField α
  thickness_field : MDField α
  coordVec : MDField α
  muParam : MDField α
  powerParam : MDField α
  lambdaParam : MDField α
  beta : MDField α

/-- The locals `mu`, `lambda`, `power` of `evaluateFields`. -/
structure CoulombLocals (α : Type) where
  mu : α
  lambda : α
  power : α

namespace BasalFrictionCoefficient

variable {α : Type} [LinearOrderedField α]

/-- The call `std::transform(s.begin(), s.end(), s.begin(), ::toupper)`. -/
def toupper (s : String) : String := String.mk (s.data.map Char.toUpper)

/-- The string `betaType` of the constructor: the entry "Type", or "Given Field"
when there is none, mapped through `::toupper`. -/
def betaTypeString (beta_list : BetaList α) : String :=
  toupper (match beta_list.type with
           | some t => t
           | none => "Given Field")

/-- The chain `if (betaType == ...) ... else ...` of the constructor, which sets
`beta_type` and registers the fields of the law; `self1` holds the members
assigned so far. -/
def selectBetaType (betaType : String) (beta_list : BetaList α) (p : BasalFrictionParams α)
    (self1 : BasalFrictionCoefficient α) : Except Exc (BasalFrictionCoefficient α) :=
  if betaType = "GIVEN CONSTANT" then do
    let beta_given_val ← getEntry "Constant Given Beta Value" beta_list.constantGivenBetaValue
    pure { self1 with beta_type := .GIVEN_CONSTANT, beta_given_val := beta_given_val }
  else if betaType = "GIVEN FIELD" || betaType = "EXPONENT OF GIVEN FIELD"
      || betaType = "GALERKIN PROJECTION OF EXPONENT OF GIVEN FIELD" then
    let beta_type : BetaType :=
      if betaType = "GIVEN FIELD" then .GIVEN_FIELD
      else if betaType = "GALERKIN PROJECTION OF EXPONENT OF GIVEN FIELD" then
        (if self1.nodal then .EXP_GIVEN_FIELD else .GAL_PROJ_EXP_GIVEN_FIELD)
      else .EXP_GIVEN_FIELD
    if beta_type = .GAL_PROJ_EXP_GIVEN_FIELD then do
      let beta_given_field ← getEntry "Beta Given Variable Name" beta_list.betaGivenVariableName
      let BF ← getEntry "BF Variable Name" p.BFName
      pure { self1 with beta_type := beta_type, dependentFields := [beta_given_field, BF] }
    else do
      let beta_given_field ← getEntry "Beta Given Variable Name" beta_list.betaGivenVariableName
      pure { self1 with beta_type := beta_type, dependentFields := [beta_given_field] }
  else if betaType = "POWER LAW" then do
    let N ← getEntry "Effective Pressure Variable Name" p.NName
    let u_norm ← getEntry "Sliding Velocity Variable Name" p.u_normName
    pure { self1 with beta_type := .POWER_LAW,
                      dependentFields := ["Coulomb Friction Coefficient", "Power Exponent",
                                          u_norm, N] }
  else if betaType = "REGULARIZED COULOMB" then do
    let N ← getEntry "Effective Pressure Variable Name" p.NName
    let u_norm ← getEntry "Sliding Velocity Variable Name" p.u_normName
    let ice_softness ← getEntry "Ice Softness Variable Name" p.ice_softnessName
    let distributedLambda := beta_list.distributedBedRoughness.getD false
    let lambda ←
      if distributedLambda then getEntry "Bed Roughness Variable Name" p.lambdaFieldName
      else pure "Bed Roughness"
    pure { self1 with beta_type := .REGULARIZED_COULOMB,
                      distributedLambda := distributedLambda,
                      dependentFields :=
                        ["Coulomb Friction Coefficient", "Power Exponent", N, u_norm,
                         ice_softness] ++ [lambda] }
  else
    throw (.InvalidParameter
      ("\nError in FELIX::BasalFrictionCoefficient:  \"" ++ betaType
        ++ "\" is not a valid parameter for Beta Type\n"))

/-- The end of the constructor, from `if(zero_on_floating)` on; `self2` holds the
members assigned so far. -/
def finishCtor (fn : ScalarFns α) (beta_list : BetaList α) (p : BasalFrictionParams α)
    (self2 : BasalFrictionCoefficient α) : Except Exc (BasalFrictionCoefficient α) := do
  let self3 : BasalFrictionCoefficient α ←
    if self2.zero_on_floating then do
      let bed_topo_field ← getEntry "Bed Topography Variable Name" p.bed_topoName
      let thickness_field ← getEntry "Ice Thickness Variable Name" p.thicknessName
      let phys_param_list ← getEntry "Physical Parameter List" p.physicalParameterList
      let rho_i ← getEntry "Ice Density" phys_param_list.iceDensity
      let rho_w ← getEntry "Water Density" phys_param_list.waterDensity
      pure { self2 with rho_i := rho_i, rho_w := rho_w,
                        dependentFields :=
                          self2.dependentFields ++ [bed_topo_field, thickness_field] }
    else pure self2
  let stereographicMapList ← getEntry "Stereographic Map" p.stereographicMapList
  let use_stereographic_map := stereographicMapList.useStereographicMap.getD false
  let self4 : BasalFrictionCoefficient α ←
    if use_stereographic_map then do
      let coordVec ← getEntry "Coordinate Vector Variable Name" p.coordVecName
      let R := stereographicMapList.earthRadius.getD 6371
      pure { self3 with use_stereographic_map := use_stereographic_map,
                        x_0 := stereographicMapList.X_0.getD 0,
                        y_0 := stereographicMapList.Y_0.getD 0,
                        R2 := fn.pow R 2,
                        dependentFields := self3.dependentFields ++ [coordVec] }
    else pure { self3 with use_stereographic_map := use_stereographic_map }
  pure { self4 with logParameters := beta_list.useLogScalarParameters.getD false }

/-- The constructor `BasalFrictionCoefficient::BasalFrictionCoefficient`.  `self`
holds the members before the body runs; a member the body does not assign on
the path taken keeps that value. -/
def ctor (IsStokes : Bool) (fn : ScalarFns α) (p : BasalFrictionParams α) (dl : Layouts)
    (self : BasalFrictionCoefficient α) : Except Exc (BasalFrictionCoefficient α) := do
  let beta_list ← getEntry "Parameter List" p.beta_list
  let zero_on_floating := beta_list.zeroBetaOnFloatingIce.getD false
  let betaType := betaTypeString beta_list
  if IsStokes && !dl.isSideLayouts then
    throw (.InvalidParameter
      "Error! The layout structure does not appear to be that of a side set.\n")
  if !IsStokes && dl.isSideLayouts then
    throw (.InvalidParameter
      "Error! The layout structure appears to be that of a side set.\n")
  let basalSideName ←
    if IsStokes then getEntry "Side Set Name" p.sideSetName else pure self.basalSideName
  let numQPs := if IsStokes then dimension dl.qp_scalar 2 else dimension dl.qp_scalar 1
  let numNodes := if IsStokes then dimension dl.node_scalar 2 else dimension dl.node_scalar 1
  let nodal := match p.nodal with
    | some b => b
    | none => false
  let betaName ← getEntry "Basal Friction Coefficient Variable Name" p.betaName
  let self1 : BasalFrictionCoefficient α :=
    { self with zero_on_floating := zero_on_floating, basalSideName := basalSideName,
                numQPs := numQPs, numNodes := numNodes, nodal := nodal,
                dependentFields := [], evaluatedFields := [betaName] }
  let self2 ← selectBetaType betaType beta_list p self1
  finishCtor fn beta_list p self2

/-- The routine `BasalFrictionCoefficient::postRegistrationSetup`: the field data
are bound, and a given constant is copied into every entry of `beta`. -/
def postRegistrationSetup (ev : BasalFrictionCoefficient α) (fd : BasalFrictionFields α) :
    BasalFrictionFields α :=
  match ev.beta_type with
  | .GIVEN_CONSTANT => { fd with beta := fun _ => ev.beta_given_val }
  | _ => fd

/-- The stereographic correction of one entry: `beta(idx) *= h*h`. -/
def stereographicScale (ev : BasalFrictionCoefficient α) (fd : BasalFrictionFields α)
    (idx : List Nat) (beta : MDField α) : MDField α :=
  let x := fd.coordVec (idx ++ [0]) - ev.x_0
  let y := fd.coordVec (idx ++ [1]) - ev.y_0
  let h := 4 * ev.R2 / (4 * ev.R2 + x * x + y * y)
  beta.set idx (beta idx * (h * h))

/-- The body of the loop over the sides in `evaluateFieldsSide`, for a type other
than `GIVEN_CONSTANT` (for which the loop returns at once). -/
def sideBody (fn : ScalarFns α) (ev : BasalFrictionCoefficient α) (fd : BasalFrictionFields α)
    (mu lambda power : α) (it_side : SideStruct) (beta : MDField α) : MDField α :=
  let dim := if ev.nodal then ev.numNodes else ev.numQPs
  let cell := it_side.elem_LID
  let side := it_side.side_local_id
  let beta1 : MDField α :=
    match ev.beta_type with
    | .GIVEN_CONSTANT => beta
    | .GIVEN_FIELD =>
      forLoop dim (fun ipt b => b.set [cell, side, ipt] (fd.beta_given_field [cell, side, ipt])) beta
    | .POWER_LAW =>
      forLoop dim (fun ipt b =>
        b.set [cell, side, ipt]
          (mu * fd.N [cell, side, ipt] * fn.pow (fd.u_norm [cell, side, ipt]) power)) beta
    | .REGULARIZED_COULOMB =>
      forLoop dim (fun ipt b =>
        let q := fd.u_norm [cell, side, ipt]
          / (fd.u_norm [cell, side, ipt]
              + lambda * fn.pow (fd.ice_softness [cell, side] * fd.N [cell, side, ipt]) (1 / power))
        b.set [cell, side, ipt]
          (mu * fd.N [cell, side, ipt] * fn.pow q power / fd.u_norm [cell, side, ipt])) beta
    | .EXP_GIVEN_FIELD =>
      forLoop dim (fun ipt b =>
        b.set [cell, side, ipt] (fn.exp (fd.beta_given_field [cell, side, ipt]))) beta
    | .GAL_PROJ_EXP_GIVEN_FIELD =>
      forLoop ev.numQPs (fun qp b =>
        forLoop ev.numNodes (fun node b =>
          b.set [cell, side, qp]
            (b [cell, side, qp]
              + fn.exp (fd.beta_given_field [cell, side, node]) * fd.BF [cell, side, node, qp]))
          (b.set [cell, side, qp] 0)) beta
  let beta2 : MDField α :=
    if ev.zero_on_floating then
      forLoop dim (fun ipt b =>
        let isGrounded : α :=
          if ev.rho_i * fd.thickness_field [cell, side, ipt]
              > -ev.rho_w * fd.bed_topo_field [cell, side, ipt] then 1 else 0
        b.set [cell, side, ipt] (b [cell, side, ipt] * isGrounded)) beta1
    else beta1
  if ev.use_stereographic_map then
    forLoop dim (fun ipt b => stereographicScale ev fd [cell, side, ipt] b) beta2
  else beta2

/-- The loop over the sides in `evaluateFieldsSide`; for `GIVEN_CONSTANT` the
first iteration returns from the routine. -/
def sideLoop (fn : ScalarFns α) (ev : BasalFrictionCoefficient α) (fd : BasalFrictionFields α)
    (mu lambda power : α) : List SideStruct → MDField α → MDField α
  | [], beta => beta
  | it_side :: rest, beta =>
    if ev.beta_type = .GIVEN_CONSTANT then beta
    else sideLoop fn ev fd mu lambda power rest (sideBody fn ev fd mu lambda power it_side beta)

/-- The routine `BasalFrictionCoefficient::evaluateFieldsSide`; returns the field `beta`. -/
def evaluateFieldsSide (fn : ScalarFns α) (ev : BasalFrictionCoefficient α) (workset : Workset)
    (fd : BasalFrictionFields α) (mu lambda power : α) : MDField α :=
  match workset.sideSets.lookup ev.basalSideName with
  | none => fd.beta
  | some sideSet => sideLoop fn ev fd mu lambda power sideSet fd.beta

/-- The regularized Coulomb entry of the cell path, for the roughness `lam` and
the effective pressure `Neff` (already passed through `exp` or `max(.,0)`). -/
def coulombCell (fn : ScalarFns α) (fd : BasalFrictionFields α) (mu power lam Neff : α)
    (cell ipt : Nat) : α :=
  let q := fd.u_norm [cell, ipt]
    / (fd.u_norm [cell, ipt] + lam * fd.ice_softness [cell] * fn.pow Neff 3)
  mu * Neff * fn.pow q power / fd.u_norm [cell, ipt]

/-- The routine `BasalFrictionCoefficient::evaluateFieldsCell`; returns the field `beta`. -/
def evaluateFieldsCell (fn : ScalarFns α) (ev : BasalFrictionCoefficient α) (workset : Workset)
    (fd : BasalFrictionFields α) (mu lambda power : α) : MDField α :=
  let dim := if ev.nodal then ev.numNodes else ev.numQPs
  let beta1 : MDField α :=
    match ev.beta_type with
    | .GIVEN_CONSTANT => fd.beta
    | .GIVEN_FIELD =>
      forLoop workset.numCells (fun cell =>
        forLoop dim (fun ipt b => b.set [cell, ipt] (fd.beta_given_field [cell, ipt]))) fd.beta
    | .POWER_LAW =>
      forLoop workset.numCells (fun cell =>
        forLoop dim (fun ipt b =>
          b.set [cell, ipt] (mu * fd.N [cell, ipt] * fn.pow (fd.u_norm [cell, ipt]) power)))
        fd.beta
    | .REGULARIZED_COULOMB =>
      if ev.distributedLambda then
        if ev.logParameters then
          forLoop workset.numCells (fun cell =>
            forLoop dim (fun ipt b =>
              b.set [cell, ipt]
                (coulombCell fn fd mu power (fd.lambdaField [cell, ipt])
                  (fn.exp (fd.N [cell, ipt])) cell ipt))) fd.beta
        else
          forLoop workset.numCells (fun cell =>
            forLoop dim (fun ipt b =>
              b.set [cell, ipt]
                (coulombCell fn fd mu power (fd.lambdaField [cell, ipt])
                  (max (fd.N [cell, ipt]) 0) cell ipt))) fd.beta
      else
        if ev.logParameters then
          forLoop workset.numCells (fun cell =>
            forLoop dim (fun ipt b =>
              b.set [cell, ipt]
                (coulombCell fn fd mu power lambda (fn.exp (fd.N [cell, ipt])) cell ipt))) fd.beta
        else
          forLoop workset.numCells (fun cell =>
            forLoop dim (fun ipt b =>
              b.set [cell, ipt]
                (coulombCell fn fd mu power lambda (max (fd.N [cell, ipt]) 0) cell ipt))) fd.beta
    | .EXP_GIVEN_FIELD =>
      forLoop workset.numCells (fun cell =>
        forLoop dim (fun ipt b => b.set [cell, ipt] (fn.exp (fd.beta_given_field [cell, ipt]))))
        fd.beta
    | .GAL_PROJ_EXP_GIVEN_FIELD =>
      forLoop workset.numCells (fun cell =>
        forLoop dim (fun ipt b =>
          forLoop ev.numNodes (fun node b =>
            b.set [cell, ipt]
              (b [cell, ipt] + fn.exp (fd.beta_given_field [cell, node]) * fd.BF [cell, node, ipt]))
            (b.set [cell, ipt] 0))) fd.beta
  if ev.use_stereographic_map then
    forLoop workset.numCells (fun cell =>
      forLoop dim (fun ipt b => stereographicScale ev fd [cell, ipt] b)) beta1
  else beta1

/-- The first part of `evaluateFields`: the scalar parameters are read and
checked.  `init` holds the locals as declared, without a value of their own. -/
def readParameters (fn : ScalarFns α) (ev : BasalFrictionCoefficient α)
    (fd : BasalFrictionFields α) (init : CoulombLocals α) : Except Exc (CoulombLocals α) :=
  let step1 : Except Exc (CoulombLocals α) :=
    if ev.beta_type = .POWER_LAW || ev.beta_type = .REGULARIZED_COULOMB then
      let l : CoulombLocals α :=
        if ev.logParameters then
          { mu := fn.exp (fd.muParam [0]), power := fn.exp (fd.powerParam [0]),
            lambda := if !ev.distributedLambda then fn.exp (fd.lambdaParam [0]) else init.lambda }
        else
          { mu := fd.muParam [0], power := fd.powerParam [0],
            lambda := if !ev.distributedLambda then fd.lambdaParam [0] else init.lambda }
      if l.power < 0 then
        .error (.InvalidParameter
          "\nError in FELIX::BasalFrictionCoefficient: 'Power Exponent' must be >= 0.\n")
      else if l.mu < 0 then
        .error (.InvalidParameter
          "\nError in FELIX::BasalFrictionCoefficient: 'Coulomb Friction Coefficient' must be >= 0.\n")
      else if !ev.distributedLambda && l.lambda < 0 then
        .error (.InvalidParameter
          "\nError in FELIX::BasalFrictionCoefficient: \"Bed Roughness\" must be >= 0.\n")
      else .ok l
    else .ok init
  match step1 with
  | .error e => .error e
  | .ok l =>
    if ev.beta_type = .REGULARIZED_COULOMB then
      let l2 : CoulombLocals α :=
        if ev.logParameters then
          { l with lambda := if !ev.distributedLambda then fn.exp (fd.lambdaParam [0]) else l.lambda }
        else
          { l with lambda := if !ev.distributedLambda then fd.lambdaParam [0] else l.lambda }
      if !ev.distributedLambda && l2.lambda < 0 then
        .error (.InvalidParameter
          "\nError in FELIX::BasalFrictionCoefficient: \"Bed Roughness\" must be >= 0.\n")
      else .ok l2
    else .ok l

/-- The routine `BasalFrictionCoefficient::evaluateFields`; returns the field
`beta`, or the exception thrown. -/
def evaluateFields (IsStokes : Bool) (fn : ScalarFns α) (ev : BasalFrictionCoefficient α)
    (workset : Workset) (fd : BasalFrictionFields α) (init : CoulombLocals α) :
    Except Exc (MDField α) :=
  match readParameters fn ev fd init with
  | .error e => .error e
  | .ok l =>
    if IsStokes then .ok (evaluateFieldsSide fn ev workset fd l.mu l.lambda l.power)
    else .ok (evaluateFieldsCell fn ev workset fd l.mu l.lambda l.power)

/-- Two calls of `evaluateFields` in a row on the same workset and inputs: the
field `beta` the first call leaves is the one the second call starts from. -/
def evaluateFieldsTwice (IsStokes : Bool) (fn : ScalarFns α) (ev : BasalFrictionCoefficient α)
    (workset : Workset) (fd : BasalFrictionFields α) (init : CoulombLocals α) :
    Except Exc (MDField α) :=
  match evaluateFields IsStokes fn ev workset fd init with
  | .error e => .error e
  | .ok beta1 => evaluateFields IsStokes fn ev workset { fd with beta := beta1 } init

end BasalFrictionCoefficient

/-! ## Hydrology::constructEvaluators: registration of the required fields -/

/-- The values of `Albany::StateStruct::MeshFieldEntity` used by the problem. -/
inductive MeshFieldEntity where
  | ElemData
  | NodalDataToElemNode
  | NodalDistParameter
  deriving DecidableEq, Repr

/-- One entry of the sublist "Distributed Parameters": a sublist
"Distributed Parameter i" with "Name" and "Mesh Part" (default empty), or the
legacy entry "Parameter i". -/
inductive DistParamEntry where
  | sublist (name : String) (meshPart : Option String)
  | legacy (name : String)

/-- The sublist "Field i" of "Required Fields Info". -/
structure FieldList where
  /-- "Field Name" -/
  fieldName : String
  /-- "Field Usage", default "Input" -/
  fieldUsage : Option String
  /-- "Field Type" -/
  fieldType : String

/-- A call of `stateMgr.registerStateVariable`: state name, data layout, entity
and mesh part. -/
structure StateRegistration where
  stateName : String
  layout : String
  entity : MeshFieldEntity
  meshPart : String
  deriving DecidableEq, Repr

/-- The evaluators registered for the required fields. -/
inductive FieldEvaluator where
  | SaveStateField (stateName : String) (nodal_state : Bool)
  | GatherScalarNodalParameter (stateName fieldName : String)
  | LoadStateField (stateName fieldName : String)
  deriving DecidableEq, Repr

/-- The values of `Albany::FieldManagerChoice`. -/
inductive FieldManagerChoice where
  | BUILD_RESID_FM
  | BUILD_RESPONSE_FM
  | BUILD_STATE_FM
  deriving DecidableEq, Repr

/-- The locals of `Hydrology::constructEvaluators` that the loop over the
required fields reads and writes, and what the loop hands to the state manager
and to the field manager; a `std::map` is the list of its entries. -/
structure RegistrationState where
  is_dist_param : List (String × Bool)
  is_dirichlet_field : List (String × Bool)
  dist_params_name_to_mesh_part : List (String × String)
  inputs_found : List String
  /-- the calls of `stateMgr.registerStateVariable` -/
  states : List StateRegistration
  /-- the evaluators handed to `fm0.registerEvaluator` -/
  evaluators : List FieldEvaluator
  /-- the local `ev`, a `Teuchos::RCP` declared once before the loop: `none` is
  the null pointer it starts as -/
  ev : Option FieldEvaluator
  /-- the field tags handed to `fm0.requireField` -/
  requiredFields : List String

namespace Hydrology

/-- The assignment `m[key] = value` on a `std::map`. -/
def mapAssign {β : Type} (m : List (String × β)) (key : String) (value : β) :
    List (String × β) :=
  if m.any (fun e => e.1 == key) then
    m.map (fun e => if e.1 == key then (key, value) else e)
  else m ++ [(key, value)]

/-- The call `m.insert(std::pair(key,value))`: nothing changes when the key is there. -/
def mapInsert {β : Type} (m : List (String × β)) (key : String) (value : β) :
    List (String × β) :=
  if m.any (fun e => e.1 == key) then m else m ++ [(key, value)]

/-- The read `m[key]` of a `std::map<std::string,bool>`: false when the key is absent. -/
def mapGet (m : List (String × Bool)) (key : String) : Bool :=
  (m.lookup key).getD false

/-- The test `pname.find(pat)!=std::string::npos`. -/
def contains (pname pat : String) : Bool :=
  decide (List.IsInfix pat.toList pname.toList)

/-- The gathering of the distributed parameters: the sublist
"Distributed Parameters" (when there is one) fills `is_dist_param` and
`dist_params_name_to_mesh_part`. -/
def gatherDistParams (distParams : Option (List DistParamEntry)) (st : RegistrationState) :
    RegistrationState :=
  match distParams with
  | none => st
  | some entries =>
    forEach entries (fun entry st =>
      match entry with
      | .sublist param_name meshPart =>
        { st with
          dist_params_name_to_mesh_part :=
            mapAssign st.dist_params_name_to_mesh_part param_name (meshPart.getD ""),
          is_dist_param := mapAssign st.is_dist_param param_name true }
      | .legacy param_name =>
        { st with
          dist_params_name_to_mesh_part :=
            mapAssign st.dist_params_name_to_mesh_part param_name "",
          is_dist_param := mapAssign st.is_dist_param param_name true }) st

/-- The gathering of the Dirichlet fields: every entry of "Dirichlet BCs" whose
name contains "prescribe Field" names a state. -/
def gatherDirichletFields (dbcs : Option (List (String × String))) (st : RegistrationState) :
    RegistrationState :=
  match dbcs with
  | none => st
  | some entries =>
    forEach entries (fun entry st =>
      if contains entry.1 "prescribe Field" then
        { st with is_dirichlet_field := mapAssign st.is_dirichlet_field entry.2 true }
      else st) st

/-- The message of the sanity check on distributed parameters and Dirichlet fields. -/
def nodeScalarMsg : String :=
  "Error! Distributed parameters and dirichlet fields MUST be node scalars.\n"

/-- The chain `if(fieldType == ...) ... else ...` that registers the state
according to its type: the call of `registerStateVariable` and `nodal_state`, or
the exception.  `isDist` is `is_dist_param[stateName]` and `isParam` is
`is_dist_param[stateName] || is_dirichlet_field[stateName]`. -/
def registerState (fieldType stateName meshPart : String) (isDist isParam : Bool) :
    Except Exc (StateRegistration × Bool) :=
  if fieldType = "Elem Scalar" then
    if isParam then .error (.logic_error nodeScalarMsg)
    else .ok (⟨stateName, "cell_scalar2", .ElemData, meshPart⟩, false)
  else if fieldType = "Node Scalar" then
    .ok (⟨stateName, "node_scalar",
          if isParam then .NodalDistParameter else .NodalDataToElemNode, meshPart⟩, true)
  else if fieldType = "Elem Vector" then
    if isParam then .error (.logic_error nodeScalarMsg)
    else .ok (⟨stateName, "cell_vector", .ElemData, meshPart⟩, false)
  else if fieldType = "Node Vector" then
    if isParam then .error (.logic_error nodeScalarMsg)
    else .ok (⟨stateName, "node_vector",
          if isDist then .NodalDistParameter else .NodalDataToElemNode, meshPart⟩, true)
  else
    .error (.InvalidParameterValue
      ("Error! Invalid value '" ++ fieldType ++ "' for parameter 'Field Type'.\n"))

/-- The statements `ev = ...; fm0.template registerEvaluator<EvalT>(ev);`. -/
def registerEvaluator (e : FieldEvaluator) (st : RegistrationState) : RegistrationState :=
  { st with ev := some e, evaluators := st.evaluators ++ [e] }

/-- The statement `if ( fieldManagerChoice==Albany::BUILD_RESID_FM &&
ev->evaluatedFields().size()>0) fm0.template requireField<EvalT>(*ev->evaluatedFields()[0]);`
at the end of `if (outputField)`.  `evaluatedFields` gives the list of an
evaluator (code outside the repository).  The operator `->` on a null `ev` is
`Teuchos::NullReferenceError`, which Teuchos throws when built with its debug
checks (`TEUCHOS_DEBUG`); without them the dereference has no defined
behaviour. -/
def requireEvaluatedField (fieldManagerChoice : FieldManagerChoice)
    (evaluatedFields : FieldEvaluator → List String) (st : RegistrationState) :
    Except Exc RegistrationState :=
  if fieldManagerChoice = .BUILD_RESID_FM then
    match st.ev with
    | none => .error (.NullReferenceError "ev")
    | some ev =>
      match evaluatedFields ev with
      | [] => .ok st
      | tag :: _ => .ok { st with requiredFields := st.requiredFields ++ [tag] }
  else .ok st

/-- The body of `if (outputField)` in the loop over the required fields: a field
that is not both a distributed parameter and a Dirichlet field gets a
`SaveStateField`; then, whether or not it got one, `ev->evaluatedFields()` is
read for the residual field manager. -/
def saveOutputField (fieldManagerChoice : FieldManagerChoice)
    (evaluatedFields : FieldEvaluator → List String) (stateName : String) (nodal_state : Bool)
    (isDist isDirichlet : Bool) (st : RegistrationState) : Except Exc RegistrationState :=
  requireEvaluatedField fieldManagerChoice evaluatedFields
    (if !isDist || !isDirichlet then
      registerEvaluator (.SaveStateField stateName nodal_state) st
     else st)

/-- The body of `if (inputField)` in the loop over the required fields: a
parameter is gathered, any other field is loaded. -/
def loadInputField (stateName fieldName : String) (isParam : Bool) (st : RegistrationState) :
    RegistrationState :=
  if isParam then registerEvaluator (.GatherScalarNodalParameter stateName fieldName) st
  else registerEvaluator (.LoadStateField stateName fieldName) st

/-- One iteration of the loop over the required fields in
`Hydrology::constructEvaluators`. -/
def registerField (fieldManagerChoice : FieldManagerChoice)
    (evaluatedFields : FieldEvaluator → List String) (thisFieldList : FieldList)
    (st : RegistrationState) : Except Exc RegistrationState :=
  let stateName := thisFieldList.fieldName
  let fieldName := thisFieldList.fieldName
  let fieldUsage := thisFieldList.fieldUsage.getD "Input"
  if fieldUsage = "Unused" then .ok st
  else
    let is_dist_param := mapInsert st.is_dist_param stateName false
    let is_dirichlet_field := mapInsert st.is_dirichlet_field stateName false
    let isParam := mapGet is_dist_param stateName || mapGet is_dirichlet_field stateName
    let inputField := fieldUsage = "Input" || fieldUsage = "Input-Output" || isParam
    let outputField := fieldUsage = "Output" || fieldUsage = "Input-Output"
    let inputs_found := st.inputs_found ++ [stateName]
    let meshPart :=
      if mapGet is_dist_param stateName then
        (st.dist_params_name_to_mesh_part.lookup stateName).getD ""
      else ""
    let fieldType := thisFieldList.fieldType
    match registerState fieldType stateName meshPart (mapGet is_dist_param stateName) isParam with
    | .error e => .error e
    | .ok (reg, nodal_state) =>
      let st1 : RegistrationState :=
        { st with is_dist_param := is_dist_param, is_dirichlet_field := is_dirichlet_field,
                  inputs_found := inputs_found, states := st.states ++ [reg] }
      let saved :=
        if outputField then
          saveOutputField fieldManagerChoice evaluatedFields stateName nodal_state
            (mapGet is_dist_param stateName) (mapGet is_dirichlet_field stateName) st1
        else .ok st1
      match saved with
      | .error e => .error e
      | .ok st2 =>
        .ok (if inputField then loadInputField stateName fieldName isParam st2 else st2)

/-- The loop over the required fields: the first exception ends it. -/
def registerFields (fieldManagerChoice : FieldManagerChoice)
    (evaluatedFields : FieldEvaluator → List String) :
    List FieldList → RegistrationState → Except Exc RegistrationState
  | [], st => .ok st
  | f :: rest, st =>
    match registerField fieldManagerChoice evaluatedFields f st with
    | .error e => .error e
    | .ok st1 => registerFields fieldManagerChoice evaluatedFields rest st1

/-- The start of `Hydrology::constructEvaluators`, up to the end of the loop over
the required fields. -/
def constructEvaluators (fieldManagerChoice : FieldManagerChoice)
    (evaluatedFields : FieldEvaluator → List String)
    (distParams : Option (List DistParamEntry))
    (dbcs : Option (List (String × String))) (req_fields_info : List FieldList) :
    Except Exc RegistrationState :=
  let st0 : RegistrationState := ⟨[], [], [], [], [], [], none, []⟩
  registerFields fieldManagerChoice evaluatedFields req_fields_info
    (gatherDirichletFields dbcs (gatherDistParams distParams st0))

end Hydrology

end FELIX

/-! ## SurfaceCohesiveResidual -/

namespace LCM

open FELIX

/-- The part of `Albany::Layouts` the constructor of `SurfaceCohesiveResidual`
reads: the dimensions of the two vector layouts. -/
structure VectorLayouts where
  node_vector : List Nat
  qp_vector : List Nat

/-- The parameter list handed to the constructor of `SurfaceCohesiveResidual`.
The cubature and the basis are Intrepid objects; they are given by what the
constructor reads from them. -/
structure SurfaceCohesiveParams (α : Type) where
  /-- "Cubature": the result of `getNumPoints()` -/
  numPoints : Nat
  /-- "Intrepid Basis": the values `getValues(.., OPERATOR_VALUE)` writes, indexed
  by plane node and cubature point -/
  basisValues : MDField α
  /-- "Intrepid Basis": the values `getValues(.., OPERATOR_GRAD)` writes -/
  basisGrads : MDField α
  /-- "Reference Area Name" -/
  refAreaName : String
  /-- "Cohesive Traction Name" -/
  cohesiveTractionName : String
  /-- "Surface Cohesive Residual Name" -/
  forceName : String

/-- The members of a `SurfaceCohesiveResidual` evaluator that `evaluateFields`
can read (`ref_points_` and `ref_weights_` are filled and not read again). -/
structure SurfaceCohesiveResidual (α : Type) where
  workset_size_ : Nat
  num_nodes_ : Nat
  num_dims_ : Nat
  num_qps_ : Nat
  num_surf_nodes_ : Nat
  num_surf_dims_ : Nat
  ref_values_ : MDField α
  ref_grads_ : MDField α
  dependentFields : List String
  evaluatedFields : List String

namespace SurfaceCohesiveResidual

variable {α : Type} [LinearOrderedField α]

/-- The constructor `SurfaceCohesiveResidual::SurfaceCohesiveResidual`. -/
def ctor (p : SurfaceCohesiveParams α) (dl : VectorLayouts) : SurfaceCohesiveResidual α :=
  let dims := dl.node_vector
  let workset_size_ := dims.getD 0 0
  let num_nodes_ := dims.getD 1 0
  let num_dims_ := dims.getD 2 0
  let num_qps_ := p.numPoints
  let num_surf_nodes_ := num_nodes_ / 2
  let num_surf_dims_ := num_dims_ - 1
  { workset_size_ := workset_size_, num_nodes_ := num_nodes_, num_dims_ := num_dims_,
    num_qps_ := num_qps_, num_surf_nodes_ := num_surf_nodes_, num_surf_dims_ := num_surf_dims_,
    ref_values_ := p.basisValues, ref_grads_ := p.basisGrads,
    dependentFields := [p.refAreaName, p.cohesiveTractionName],
    evaluatedFields := [p.forceName] }

/-- The loop over the quadrature points in `evaluateFields`: the vector `f_plus`,
filled with zeros and then summed up, for one cell and one bottom node. -/
def f_plus (ev : SurfaceCohesiveResidual α) (cohesive_traction_ ref_area_ : MDField α)
    (cell bottom_node : Nat) : α × α × α :=
  forLoop ev.num_qps_ (fun pt f =>
    (f.1 + cohesive_traction_ [cell, pt, 0] * ev.ref_values_ [bottom_node, pt]
            * ref_area_ [cell, pt],
     f.2.1 + cohesive_traction_ [cell, pt, 1] * ev.ref_values_ [bottom_node, pt]
            * ref_area_ [cell, pt],
     f.2.2 + cohesive_traction_ [cell, pt, 2] * ev.ref_values_ [bottom_node, pt]
            * ref_area_ [cell, pt])) (0, 0, 0)

/-- The routine `SurfaceCohesiveResidual::evaluateFields`; returns the field `force_`. -/
def evaluateFields (ev : SurfaceCohesiveResidual α) (workset : Workset)
    (cohesive_traction_ ref_area_ force_ : MDField α) : MDField α :=
  forLoop workset.numCells (fun cell =>
    forLoop ev.num_surf_nodes_ (fun bottom_node force_ =>
      let top_node := bottom_node + ev.num_surf_nodes_
      let f := f_plus ev cohesive_traction_ ref_area_ cell bottom_node
      (((((force_.set [cell, bottom_node, 0] (-f.1)).set [cell, bottom_node, 1] (-f.2.1)).set
          [cell, bottom_node, 2] (-f.2.2)).set
          [cell, top_node, 0] f.1).set [cell, top_node, 1] f.2.1).set [cell, top_node, 2] f.2.2))
    force_

end SurfaceCohesiveResidual

/-- Layouts of a workset of one cell with 4 nodes (2 bottom, 2 top) and 3
dimensions; 2 quadrature points. -/
def cohesiveLayouts : VectorLayouts :=
  { node_vector := [1, 4, 3], qp_vector := [1, 2, 3] }

/-- A parameter list for `SurfaceCohesiveResidual`: 2 cubature points, and the
shape function of plane node `a` at point `pt` equal to 1 when `a = pt` and to
0 otherwise. -/
def cohesiveParams : SurfaceCohesiveParams ℚ :=
  { numPoints := 2,
    basisValues := fun j => if j.getD 0 0 = j.getD 1 0 then 1 else 0,
    basisGrads := fun _ => 0,
    refAreaName := "Reference Area", cohesiveTractionName := "Cohesive Traction",
    forceName := "Surface Cohesive Residual" }

/-- The cohesive traction (1, 2, 3) at every quadrature point. -/
def cohesiveTraction : MDField ℚ := fun j => (j.getD 2 0 : ℚ) + 1

end LCM

namespace FELIX

/-! ## A rational instance of the library functions -/

/-- The natural number `r` with `r ^ k = n`, when there is one. -/
def exactRoot (k n : Nat) : Option Nat :=
  (List.range (n + 1)).find? (fun r => r ^ k == n)

/-- The function `std::pow` on the rationals, where the power is rational: an
integer exponent, or a base whose numerator and denominator are perfect powers
of the exponent's denominator.  Elsewhere the power is not a rational number
and the value here is 0. -/
def powQ (x e : ℚ) : ℚ :=
  if e.den = 1 then x ^ e.num
  else
    match exactRoot e.den x.num.toNat, exactRoot e.den x.den with
    | some a, some b => if 0 ≤ x then ((a : ℚ) / (b : ℚ)) ^ e.num else 0
    | _, _ => 0

/-- The rational instance of the library functions; `exp` is exact at 0 only. -/
def ratFns : ScalarFns ℚ where
  pow := powQ
  exp := fun x => if x = 0 then 1 else 0
  sqrt := fun x => powQ x (1 / 2)

/-! ## Concrete inputs -/

/-- Layouts of a cell field manager: not side layouts; one cell bucket with
2 nodes, 2 quadrature points and 2 dimensions. -/
def cellLayouts : Layouts :=
  { isSideLayouts := false, qp_scalar := [1, 2], qp_gradient := [1, 2, 2], node_scalar := [1, 2] }

/-- Layouts of a side field manager: side layouts with leading cell and side
dimensions. -/
def sideLayouts : Layouts :=
  { isSideLayouts := true, qp_scalar := [1, 1, 2], qp_gradient := [1, 1, 2, 2],
    node_scalar := [1, 1, 2] }

/-- A parameter list for `HydrologyWaterDischarge` as the problem builds it,
with the side set name added: the exponents alpha = 1 and beta = `b`,
transmissivity 1 and no regularization. -/
def waterDischargeParams (b : ℚ) : WaterDischargeParams ℚ :=
  { gradPhiName := some "hydraulic_potential Gradient", hName := some "water_thickness",
    qName := some "water_discharge", sideSetName := some "basalside",
    gradPhiNormName := some "hydraulic_potential Gradient Norm",
    regularizationParamName := some "Regularization",
    hydrology := some { transmissivity := some 1, waterThicknessExponent := some 1,
                        potentialGradientNormExponent := some b,
                        regularizeWithContinuation := none } }

/-- The parameter list with beta = 3 and no entry "Transmissivity". -/
def noTransmissivityParams : WaterDischargeParams ℚ :=
  { waterDischargeParams 3 with
    hydrology := some { transmissivity := none, waterThicknessExponent := some 1,
                        potentialGradientNormExponent := some 3,
                        regularizeWithContinuation := none } }

/-- The parameter list with beta = 0. -/
def stokesCellParams : WaterDischargeParams ℚ := waterDischargeParams 0

/-- The evaluator `HydrologyWaterDischarge` built from `waterDischargeParams 3`
on `cellLayouts`. -/
def dischargeEv3 : HydrologyWaterDischarge ℚ :=
  { sideSetName := "", numQPs := 2, numDim := 2, k_0 := 1, alpha := 1, beta := 3,
    needsGradPhiNorm := true, regularize := false,
    dependentFields := ["hydraulic_potential Gradient", "water_thickness",
                        "hydraulic_potential Gradient Norm"],
    evaluatedFields := ["water_discharge"] }

/-- A workset of one cell, with the side set "basalside" of one side. -/
def oneCellWorkset : Workset :=
  { numCells := 1, sideSets := [("basalside", [⟨0, 0⟩])] }

/-- A workset of one cell for the water discharge. -/
def dischargeWorkset : Workset := oneCellWorkset

/-- Field data for the water discharge: h = 1 and grad(phi) = (2, 0), of norm 2,
at every quadrature point. -/
def dischargeFields : WaterDischargeFields ℚ :=
  { gradPhi := fun j => if j.getD 2 0 = 0 then 2 else 0,
    h := fun _ => 1,
    gradPhiNorm := fun _ => 2,
    regularizationParam := fun _ => 0,
    q := fun _ => 0 }

/-- A parameter list for `EffectivePressure`: default physical parameters,
water thickness used in the formula. -/
def pressureParams : EffectivePressureParams ℚ :=
  { HName := "ice_thickness", NName := "effective_pressure", sideSetName := "basalside",
    regularizeWithContinuation := none, regularizationParamName := "Regularization",
    z_sName := "surface_height", phiName := "hydraulic_potential",
    useWaterThickness := some true, hName := "water_thickness",
    physics := { iceDensity := none, waterDensity := none, gravityAcceleration := none } }

/-- The non-surrogate cell evaluator `EffectivePressure` built from
`pressureParams` on `cellLayouts`. -/
def pressureEv : EffectivePressure ℚ :=
  { regularized := false, numNodes := 2, basalSideName := "", use_h := true,
    rho_i := 910, rho_w := 1000, g := 98 / 10,
    dependentFields := ["hydraulic_potential", "surface_height", "water_thickness",
                        "ice_thickness"],
    evaluatedFields := ["effective_pressure"] }

/-- A surrogate evaluator `EffectivePressure` without regularization, on the
side set "basalside". -/
def surrogateEv : EffectivePressure ℚ :=
  { regularized := false, numNodes := 2, basalSideName := "basalside", use_h := false,
    rho_i := 910, rho_w := 1000, g := 98 / 10,
    dependentFields := ["Hydraulic-Over-Hydrostatic Potential Ratio", "ice_thickness"],
    evaluatedFields := ["effective_pressure"] }

/-- Field data for the effective pressure: H = 1, z_s = 2, phi = 3, h = 1/10,
alpha = 1/2. -/
def pressureFields : EffectivePressureFields ℚ :=
  { H := fun _ => 1, z_s := fun _ => 2, phi := fun _ => 3, h := fun _ => 1 / 10,
    alphaParam := fun _ => 1 / 2, regularizationParam := fun _ => 1, N := fun _ => 0 }

/-- A parameter list for `BasalFrictionCoefficient` with the entry "Type" as
given and every entry the constructor can read: no zeroing on floating ice, no
stereographic map, plain scalar parameters, bed roughness given as a
parameter. -/
def frictionParams (type : Option String) : BasalFrictionParams ℚ :=
  { beta_list := some { zeroBetaOnFloatingIce := none, type := type,
                        constantGivenBetaValue := some 1,
                        betaGivenVariableName := some "basal_friction",
                        distributedBedRoughness := none, useLogScalarParameters := none },
    sideSetName := some "basalside", nodal := none, betaName := some "beta",
    BFName := some "BF",
    NName := some "effective_pressure", u_normName := some "sliding_velocity",
    ice_softnessName := some "ice_softness", lambdaFieldName := some "bed_roughness",
    bed_topoName := some "bed_topography", thicknessName := some "ice_thickness",
    physicalParameterList := some { iceDensity := some 910, waterDensity := some 1000 },
    stereographicMapList := some { useStereographicMap := none, earthRadius := none,
                                   X_0 := none, Y_0 := none },
    coordVecName := some "Coord Vec" }

/-- The members of a `BasalFrictionCoefficient` before its constructor runs. -/
def frictionSelf : BasalFrictionCoefficient ℚ :=
  { zero_on_floating := false, basalSideName := "", numQPs := 0, numNodes := 0, nodal := false,
    beta_type := .GIVEN_CONSTANT, beta_given_val := 0, distributedLambda := false,
    rho_i := 0, rho_w := 0, use_stereographic_map := false, x_0 := 0, y_0 := 0, R2 := 0,
    logParameters := false, dependentFields := [], evaluatedFields := [] }

/-- The Stokes evaluator `BasalFrictionCoefficient` built from
`frictionParams (some "Regularized Coulomb")` on `sideLayouts`. -/
def coulombEv : BasalFrictionCoefficient ℚ :=
  { frictionSelf with
    basalSideName := "basalside", numQPs := 2, numNodes := 2,
    beta_type := .REGULARIZED_COULOMB, distributedLambda := false,
    dependentFields := ["Coulomb Friction Coefficient", "Power Exponent", "effective_pressure",
                        "sliding_velocity", "ice_softness", "Bed Roughness"],
    evaluatedFields := ["beta"] }

/-- Field data for the regularized Coulomb law: N = 1, |u| = 1, ice softness
A = 4, and the parameters mu = 1, lambda = 1, power = 2. -/
def coulombFields : BasalFrictionFields ℚ :=
  { beta_given_field := fun _ => 0, BF := fun _ => 0,
    N := fun _ => 1, u_norm := fun _ => 1, ice_softness := fun _ => 4,
    lambdaField := fun _ => 0, bed_topo_field := fun _ => 0, thickness_field := fun _ => 0,
    coordVec := fun _ => 0,
    muParam := fun _ => 1, powerParam := fun _ => 2, lambdaParam := fun _ => 1,
    beta := fun _ => 0 }

/-- A sublist "Distributed Parameters" with the one parameter "basal_friction". -/
def someDistParams : Option (List DistParamEntry) :=
  some [.sublist "basal_friction" none]

/-- A sublist "Dirichlet BCs" that prescribes the field "phi_dirichlet". -/
def someDirichletBCs : Option (List (String × String)) :=
  some [("DBC on NS NodeSet0 for DOF hydraulic_potential prescribe Field", "phi_dirichlet")]

/-- The required field "ice_thickness", a node scalar with the default usage. -/
def thicknessField : FieldList :=
  { fieldName := "ice_thickness", fieldUsage := none, fieldType := "Node Scalar" }

/-- A choice of the lists `evaluatedFields()` of the evaluators, which are code
outside the repository: each evaluates one field, named after its state. -/
def someEvaluatedFields : FieldEvaluator → List String
  | .SaveStateField stateName _ => [stateName]
  | .GatherScalarNodalParameter _ fieldName => [fieldName]
  | .LoadStateField _ fieldName => [fieldName]

/-- The locals of `constructEvaluators` once `someDistParams`,
`someDirichletBCs` and `thicknessField` are processed. -/
def stateAfterThickness : RegistrationState :=
  { is_dist_param := [("basal_friction", true), ("ice_thickness", false)],
    is_dirichlet_field := [("phi_dirichlet", true), ("ice_thickness", false)],
    dist_params_name_to_mesh_part := [("basal_friction", "")],
    inputs_found := ["ice_thickness"],
    states := [⟨"ice_thickness", "node_scalar", .NodalDataToElemNode, ""⟩],
    evaluators := [.LoadStateField "ice_thickness" "ice_thickness"],
    ev := some (.LoadStateField "ice_thickness" "ice_thickness"),
    requiredFields := [] }

/-- A sublist "Dirichlet BCs" that prescribes the field "basal_friction", which
`someDistParams` lists as a distributed parameter too. -/
def frictionDirichletBCs : Option (List (String × String)) :=
  some [("DBC on NS NodeSet0 for DOF hydraulic_potential prescribe Field", "basal_friction")]

/-- The required field "basal_friction", a node scalar read from the mesh and
written back to it. -/
def frictionField : FieldList :=
  { fieldName := "basal_friction", fieldUsage := some "Input-Output",
    fieldType := "Node Scalar" }

/-- A parameter list for the cell evaluator `BasalFrictionCoefficient` with the
constant beta 1 and the stereographic map of radius 1 centred at the origin. -/
def stereoParams : BasalFrictionParams ℚ :=
  { frictionParams (some "Given Constant") with
    stereographicMapList := some { useStereographicMap := some true, earthRadius := some 1,
                                   X_0 := none, Y_0 := none } }

/-- The cell evaluator `BasalFrictionCoefficient` built from `stereoParams` on
`cellLayouts`. -/
def stereoEv : BasalFrictionCoefficient ℚ :=
  { frictionSelf with
    numQPs := 2, numNodes := 2, beta_type := .GIVEN_CONSTANT, beta_given_val := 1,
    use_stereographic_map := true, x_0 := 0, y_0 := 0, R2 := 1,
    dependentFields := ["Coord Vec"], evaluatedFields := ["beta"] }

/-- Field data for the stereographic correction: every point has the
coordinates (2, 0); the other inputs are those of `coulombFields`. -/
def stereoFields : BasalFrictionFields ℚ :=
  { coulombFields with coordVec := fun j => if j.getD 2 0 = 0 then 2 else 0 }

/-! ## Specification predicates -/

/-- The transformer `t` of a field replaces the entry at every index `j` in `D`
by `u j` of its old value and leaves every other entry as it was. -/
def Updates {α : Type} (D : List Nat → Prop) (u : List Nat → α → α)
    (t : MDField α → MDField α) : Prop :=
  ∀ f j, (D j → t f j = u j (f j)) ∧ (¬ D j → t f j = f j)

/-- The indices `[cell, ipt]` with `cell < n0` and `ipt < n1`. -/
def cellDomain (n0 n1 : Nat) (j : List Nat) : Prop :=
  ∃ c, c < n0 ∧ ∃ i, i < n1 ∧ j = [c, i]


/-- The water discharge as the summary states it with the configured exponent
`b` itself on the gradient norm: q = -k h^a |grad phi|^b grad phi. -/
def dischargeAsStated {α : Type} [LinearOrderedField α] (fn : ScalarFns α)
    (k a b h gradPhiNorm gradPhi : α) : α :=
  -k * fn.pow h a * fn.pow gradPhiNorm b * gradPhi


/-- The transformer `t` of a field writes the values of `g` at the indices in
`D` and leaves every other entry as it was. -/
def Writes {α : Type} (D : List Nat → Prop) (g : MDField α) (t : MDField α → MDField α) : Prop :=
  ∀ f j, (D j → t f j = g j) ∧ (¬ D j → t f j = f j)

/-- The regularized Coulomb law as the constructor states it:
beta = mu * N * |u|^(p-1) / [|u| + lambda*A*N^(1/p)]^p. -/
def coulombAsStated {α : Type} [LinearOrderedField α] (fn : ScalarFns α)
    (mu N u lambda A p : α) : α :=
  mu * N * fn.pow u (p - 1) / fn.pow (u + lambda * A * fn.pow N (1 / p)) p

/-- The values of "Field Type" that name a kind of field. -/
def validFieldTypes : List String :=
  ["Elem Scalar", "Node Scalar", "Elem Vector", "Node Vector"]

/-- The names of the distributed parameters listed in "Distributed Parameters". -/
def distParamNames : Option (List DistParamEntry) → List String
  | none => []
  | some entries =>
    entries.map (fun entry =>
      match entry with
      | .sublist name _ => name
      | .legacy name => name)

/-- The fields prescribed in "Dirichlet BCs": the values of the entries whose
name contains "prescribe Field". -/
def dirichletFieldNames : Option (List (String × String)) → List String
  | none => []
  | some entries =>
    (entries.filter (fun entry => Hydrology.contains entry.1 "prescribe Field")).map (fun e => e.2)

/-- Every entry the constructor of `HydrologyWaterDischarge` reads with
`get<T>(name)` on some path is in the parameter list and in its sublist
"FELIX Hydrology" ("Side Set Name" is read only when `IsStokes`). -/
def WaterDischargeParams.complete {α : Type} (IsStokes : Bool) (p : WaterDischargeParams α) :
    Prop :=
  p.gradPhiName.isSome ∧ p.hName.isSome ∧ p.qName.isSome
  ∧ (IsStokes = true → p.sideSetName.isSome)
  ∧ p.gradPhiNormName.isSome ∧ p.regularizationParamName.isSome
  ∧ ∃ hy, p.hydrology = some hy ∧ hy.transmissivity.isSome
      ∧ hy.waterThicknessExponent.isSome ∧ hy.potentialGradientNormExponent.isSome

/-- Every entry the constructor of `BasalFrictionCoefficient` reads with
`get<T>(name)` on some path is in the parameter list and its sublists
("Side Set Name" is read only when `IsStokes`). -/
def BasalFrictionParams.complete {α : Type} (IsStokes : Bool) (p : BasalFrictionParams α) :
    Prop :=
  (∃ bl, p.beta_list = some bl ∧ bl.constantGivenBetaValue.isSome
      ∧ bl.betaGivenVariableName.isSome)
  ∧ (IsStokes = true → p.sideSetName.isSome)
  ∧ p.betaName.isSome ∧ p.BFName.isSome ∧ p.NName.isSome ∧ p.u_normName.isSome
  ∧ p.ice_softnessName.isSome ∧ p.lambdaFieldName.isSome
  ∧ p.bed_topoName.isSome ∧ p.thicknessName.isSome
  ∧ (∃ ph, p.physicalParameterList = some ph ∧ ph.iceDensity.isSome ∧ ph.waterDensity.isSome)
  ∧ p.stereographicMapList.isSome ∧ p.coordVecName.isSome

/-! ## Loops that fill a field -/

theorem writes_set {α : Type} (g : MDField α) (idx : List Nat) (v : α) (hv : g idx = v) :
    Writes (fun j => j = idx) g (fun f => f.set idx v) := by
  intro f j
  constructor
  · intro hj
    simp [MDField.set, hj, hv]
  · intro hj
    simp [MDField.set, hj]

theorem writes_congr {α : Type} {D D2 : List Nat → Prop} {g : MDField α}
    {t : MDField α → MDField α} (h : Writes D g t) (hD : ∀ j, D2 j ↔ D j) : Writes D2 g t := by
  intro f j
  rw [hD j]
  exact h f j

theorem writes_forEach {α ι : Type} (g : MDField α) (D : ι → List Nat → Prop)
    (body : ι → MDField α → MDField α) (xs : List ι)
    (h : ∀ x ∈ xs, Writes (D x) g (body x)) :
    Writes (fun j => ∃ x ∈ xs, D x j) g (forEach xs body) := by
  induction xs using List.reverseRecOn with
  | nil =>
    intro f j
    simp [forEach]
  | append_singleton xs x ih =>
    have ih2 := ih (fun y hy => h y (List.mem_append_left _ hy))
    have hx := h x (List.mem_append_right _ (List.mem_singleton_self x))
    intro f j
    have hstep : forEach (xs ++ [x]) body f = body x (forEach xs body f) := by
      simp [forEach, List.foldl_append]
    rw [hstep]
    by_cases hD : D x j
    · constructor
      · intro _
        exact (hx _ j).1 hD
      · intro hn
        exact absurd ⟨x, List.mem_append_right _ (List.mem_singleton_self x), hD⟩ hn
    · rw [(hx _ j).2 hD]
      constructor
      · rintro ⟨y, hy, hDy⟩
        rcases List.mem_append.1 hy with hy2 | hy2
        · exact (ih2 f j).1 ⟨y, hy2, hDy⟩
        · rw [List.mem_singleton.1 hy2] at hDy
          exact absurd hDy hD
      · intro hn
        exact (ih2 f j).2 (fun ⟨y, hy, hDy⟩ => hn ⟨y, List.mem_append_left _ hy, hDy⟩)

theorem writes_forLoop {α : Type} (g : MDField α) (D : Nat → List Nat → Prop)
    (body : Nat → MDField α → MDField α) (n : Nat)
    (h : ∀ i, i < n → Writes (D i) g (body i)) :
    Writes (fun j => ∃ i, i < n ∧ D i j) g (forLoop n body) := by
  have h2 := writes_forEach g D body (List.range n) (fun i hi => h i (List.mem_range.1 hi))
  refine writes_congr h2 (fun j => ?_)
  simp [List.mem_range]

theorem forLoop2_get {α : Type} (val : Nat → Nat → α) (n0 n1 : Nat) (f : MDField α)
    (a b : Nat) (ha : a < n0) (hb : b < n1) :
    forLoop n0 (fun i => forLoop n1 (fun k t => t.set [i, k] (val i k))) f [a, b] = val a b := by
  let g : MDField α := fun j => val (j.getD 0 0) (j.getD 1 0)
  have W := writes_forLoop g (fun i j => ∃ k, k < n1 ∧ j = [i, k])
    (fun i => forLoop n1 (fun k t => t.set [i, k] (val i k))) n0
    (fun i _ => writes_forLoop g (fun k j => j = [i, k]) (fun k t => t.set [i, k] (val i k)) n1
      (fun k _ => writes_set g [i, k] (val i k) rfl))
  exact (W f [a, b]).1 ⟨a, ha, b, hb, rfl⟩

theorem forLoop3_get {α : Type} (val : Nat → Nat → Nat → α) (n0 n1 n2 : Nat) (f : MDField α)
    (a b c : Nat) (ha : a < n0) (hb : b < n1) (hc : c < n2) :
    forLoop n0 (fun i => forLoop n1 (fun k => forLoop n2 (fun l t => t.set [i, k, l] (val i k l))))
      f [a, b, c] = val a b c := by
  let g : MDField α := fun j => val (j.getD 0 0) (j.getD 1 0) (j.getD 2 0)
  have W := writes_forLoop g (fun i j => ∃ k, k < n1 ∧ ∃ l, l < n2 ∧ j = [i, k, l])
    (fun i => forLoop n1 (fun k => forLoop n2 (fun l t => t.set [i, k, l] (val i k l)))) n0
    (fun i _ => writes_forLoop g (fun k j => ∃ l, l < n2 ∧ j = [i, k, l])
      (fun k => forLoop n2 (fun l t => t.set [i, k, l] (val i k l))) n1
      (fun k _ => writes_forLoop g (fun l j => j = [i, k, l])
        (fun l t => t.set [i, k, l] (val i k l)) n2
        (fun l _ => writes_set g [i, k, l] (val i k l) rfl)))
  exact (W f [a, b, c]).1 ⟨a, ha, b, hb, c, hc, rfl⟩

theorem forEachSide_get {α : Type} (val : Nat → Nat → Nat → α) (sideSet : List SideStruct)
    (n : Nat) (f : MDField α) (s : SideStruct) (hs : s ∈ sideSet) (k : Nat) (hk : k < n) :
    forEach sideSet (fun it =>
        forLoop n (fun l t => t.set [it.elem_LID, it.side_local_id, l]
          (val it.elem_LID it.side_local_id l))) f [s.elem_LID, s.side_local_id, k]
      = val s.elem_LID s.side_local_id k := by
  let g : MDField α := fun j => val (j.getD 0 0) (j.getD 1 0) (j.getD 2 0)
  have W := writes_forEach g
    (fun (it : SideStruct) j => ∃ l, l < n ∧ j = [it.elem_LID, it.side_local_id, l])
    (fun it => forLoop n (fun l t => t.set [it.elem_LID, it.side_local_id, l]
          (val it.elem_LID it.side_local_id l))) sideSet
    (fun it _ => writes_forLoop g (fun l j => j = [it.elem_LID, it.side_local_id, l])
      (fun l t => t.set [it.elem_LID, it.side_local_id, l] (val it.elem_LID it.side_local_id l)) n
      (fun l _ => writes_set g [it.elem_LID, it.side_local_id, l]
        (val it.elem_LID it.side_local_id l) rfl))
  exact (W f [s.elem_LID, s.side_local_id, k]).1 ⟨s, hs, k, hk, rfl⟩

/-! ## HydrologyWaterDischarge: the constructor -/

namespace HydrologyWaterDischarge

variable {α : Type} [LinearOrderedField α]

theorem setParameters_ok (p : WaterDischargeParams α) (sideSetName : String)
    (numQPs numDim : Nat) (g hn q : String) (ev : HydrologyWaterDischarge α)
    (h : setParameters p sideSetName numQPs numDim g hn q = .ok ev) :
    ∃ hy k a b,
      p.hydrology = some hy ∧ hy.transmissivity = some k
      ∧ hy.waterThicknessExponent = some a ∧ hy.potentialGradientNormExponent = some b
      ∧ 1 < b
      ∧ ev.k_0 = k ∧ ev.alpha = a ∧ ev.beta = b
      ∧ ev.needsGradPhiNorm = (if b = 2 then false else true)
      ∧ ev.regularize = hy.regularizeWithContinuation.getD false
      ∧ ev.numQPs = numQPs ∧ ev.numDim = numDim
      ∧ ev.dependentFields
          = [g, hn] ++ (if b = 2 then [] else p.gradPhiNormName.toList)
            ++ (if hy.regularizeWithContinuation.getD false then
                  p.regularizationParamName.toList else []) := by
  unfold setParameters at h
  cases hhy : p.hydrology with
  | none => simp [hhy, getEntry, bind, Except.bind] at h
  | some hy =>
  cases hk : hy.transmissivity with
  | none => simp [hhy, hk, getEntry, bind, Except.bind] at h
  | some k =>
  cases ha : hy.waterThicknessExponent with
  | none => simp [hhy, hk, ha, getEntry, bind, Except.bind] at h
  | some a =>
  cases hb : hy.potentialGradientNormExponent with
  | none => simp [hhy, hk, ha, hb, getEntry, bind, Except.bind] at h
  | some b =>
  by_cases hb1 : b ≤ 1
  · simp [hhy, hk, ha, hb, hb1, getEntry, bind, Except.bind, pure, Except.pure, throw,
      throwThe, MonadExceptOf.throw] at h
  refine ⟨hy, k, a, b, rfl, hk, ha, hb, lt_of_not_le hb1, ?_⟩
  by_cases h2 : b = 2 <;> cases hr : hy.regularizeWithContinuation.getD false <;>
    cases hnm : p.gradPhiNormName <;> cases hrn : p.regularizationParamName <;>
    simp [hhy, hk, ha, hb, hb1, h2, hr, hnm, hrn, getEntry, bind,
      Except.bind, pure, Except.pure, throw, throwThe, MonadExceptOf.throw] at h <;>
    (try subst h) <;> simp [h2, hr]

theorem setParameters_complete (p : WaterDischargeParams α) (sideSetName : String)
    (numQPs numDim : Nat) (g hn q : String) (hy : HydrologyList α) (b : α)
    (hhy : p.hydrology = some hy) (hk : hy.transmissivity.isSome)
    (ha : hy.waterThicknessExponent.isSome) (hb : hy.potentialGradientNormExponent = some b)
    (hnm : p.gradPhiNormName.isSome) (hrn : p.regularizationParamName.isSome) :
    (b ≤ 1 → setParameters p sideSetName numQPs numDim g hn q
        = .error (.InvalidParameter
            "Error! 'Darcy Law: Potential Gradient Norm Exponent' must be larger than 1.0.\n"))
    ∧ (1 < b → ∃ ev, setParameters p sideSetName numQPs numDim g hn q = .ok ev) := by
  obtain ⟨k, hk⟩ := Option.isSome_iff_exists.1 hk
  obtain ⟨a, ha⟩ := Option.isSome_iff_exists.1 ha
  obtain ⟨nm, hnm⟩ := Option.isSome_iff_exists.1 hnm
  obtain ⟨rn, hrn⟩ := Option.isSome_iff_exists.1 hrn
  unfold setParameters
  constructor
  · intro hb1
    simp [hhy, hk, ha, hb, hb1, getEntry, bind, Except.bind, throw, throwThe,
      MonadExceptOf.throw]
  · intro hb1
    have hb2 : ¬ b ≤ 1 := not_le_of_lt hb1
    by_cases h2 : b = 2 <;> cases hr : hy.regularizeWithContinuation.getD false <;>
      simp [hhy, hk, ha, hb, hb2, h2, hr, hnm, hrn, getEntry, bind, Except.bind, pure,
        Except.pure, throw, throwThe, MonadExceptOf.throw]

theorem discharge_ctor_ok (IsStokes : Bool) (p : WaterDischargeParams α) (dl : Layouts)
    (ev : HydrologyWaterDischarge α) (h : ctor IsStokes p dl = .ok ev) :
    ∃ hy k a b g hn,
      p.hydrology = some hy ∧ hy.transmissivity = some k
      ∧ hy.waterThicknessExponent = some a ∧ hy.potentialGradientNormExponent = some b
      ∧ p.gradPhiName = some g ∧ p.hName = some hn
      ∧ (IsStokes = true → dl.isSideLayouts = true)
      ∧ 1 < b
      ∧ ev.k_0 = k ∧ ev.alpha = a ∧ ev.beta = b
      ∧ ev.needsGradPhiNorm = (if b = 2 then false else true)
      ∧ ev.regularize = hy.regularizeWithContinuation.getD false
      ∧ ev.numQPs = (if IsStokes then dimension dl.qp_gradient 2 else dimension dl.qp_gradient 1)
      ∧ ev.numDim = (if IsStokes then dimension dl.qp_gradient 3 else dimension dl.qp_gradient 2)
      ∧ ev.dependentFields
          = [g, hn] ++ (if b = 2 then [] else p.gradPhiNormName.toList)
            ++ (if hy.regularizeWithContinuation.getD false then
                  p.regularizationParamName.toList else []) := by
  unfold ctor at h
  cases hg : p.gradPhiName with
  | none => simp [hg, getEntry, bind, Except.bind] at h
  | some g =>
  cases hh : p.hName with
  | none => simp [hg, hh, getEntry, bind, Except.bind] at h
  | some hn =>
  cases hq : p.qName with
  | none => simp [hg, hh, hq, getEntry, bind, Except.bind] at h
  | some q =>
  cases IsStokes with
  | false =>
    simp only [hg, hh, hq, getEntry, bind, Except.bind, pure, Except.pure, Bool.false_and,
      Bool.false_eq_true, if_false] at h
    obtain ⟨hy, k, a, b, h1, h2, h3, h4, h5, h6, h7, h8, h9, h10, h11, h12, h13⟩ :=
      setParameters_ok p _ _ _ g hn q ev h
    exact ⟨hy, k, a, b, g, hn, h1, h2, h3, h4, rfl, rfl, by simp, h5, h6, h7, h8, h9, h10,
      h11, h12, h13⟩
  | true =>
    cases hd : dl.isSideLayouts with
    | false =>
      simp [hg, hh, hq, hd, getEntry, bind, Except.bind, throw, throwThe,
        MonadExceptOf.throw] at h
    | true =>
      cases hs : p.sideSetName with
      | none =>
        simp [hg, hh, hq, hd, hs, getEntry, bind, Except.bind, pure, Except.pure] at h
      | some sn =>
        simp only [hg, hh, hq, hd, hs, getEntry, bind, Except.bind, pure, Except.pure,
          Bool.not_true, Bool.and_false, Bool.false_eq_true, if_false, if_true] at h
        obtain ⟨hy, k, a, b, h1, h2, h3, h4, h5, h6, h7, h8, h9, h10, h11, h12, h13⟩ :=
          setParameters_ok p _ _ _ g hn q ev h
        exact ⟨hy, k, a, b, g, hn, h1, h2, h3, h4, rfl, rfl, by simp, h5, h6, h7, h8, h9,
          h10, h11, h12, h13⟩

theorem ctor_complete (IsStokes : Bool) (p : WaterDischargeParams α) (dl : Layouts)
    (hy : HydrologyList α) (b : α) (hp : p.complete IsStokes)
    (hhy : p.hydrology = some hy) (hb : hy.potentialGradientNormExponent = some b) :
    ((IsStokes = true ∧ dl.isSideLayouts = false) →
        ctor IsStokes p dl = .error (.logic_error
          "Error! For coupling with StokesFO, the Layouts structure must be that of the basal side.\n"))
    ∧ ((IsStokes = true → dl.isSideLayouts = true) → b ≤ 1 →
        ctor IsStokes p dl = .error (.InvalidParameter
          "Error! 'Darcy Law: Potential Gradient Norm Exponent' must be larger than 1.0.\n"))
    ∧ ((IsStokes = true → dl.isSideLayouts = true) → 1 < b →
        ∃ ev, ctor IsStokes p dl = .ok ev) := by
  obtain ⟨hg, hh, hq, hs, hnm, hrn, hy2, hhy2, hk, ha, _⟩ := hp
  rw [hhy] at hhy2
  have hyeq := Option.some.inj hhy2
  subst hyeq
  obtain ⟨g, hg⟩ := Option.isSome_iff_exists.1 hg
  obtain ⟨hn, hh⟩ := Option.isSome_iff_exists.1 hh
  obtain ⟨q, hq⟩ := Option.isSome_iff_exists.1 hq
  refine ⟨?_, ?_, ?_⟩
  · rintro ⟨hS, hd⟩
    subst hS
    simp [ctor, hg, hh, hq, hd, getEntry, bind, Except.bind, throw, throwThe,
      MonadExceptOf.throw]
  · intro hl hb1
    cases IsStokes with
    | false =>
      have hsp := (setParameters_complete p "" (dimension dl.qp_gradient 1)
        (dimension dl.qp_gradient 2) g hn q hy b hhy hk ha hb hnm hrn).1 hb1
      simp [ctor, hg, hh, hq, getEntry, bind, Except.bind, pure, Except.pure, hsp]
    | true =>
      obtain ⟨sn, hsn⟩ := Option.isSome_iff_exists.1 (hs rfl)
      have hd := hl rfl
      have hsp := (setParameters_complete p sn (dimension dl.qp_gradient 2)
        (dimension dl.qp_gradient 3) g hn q hy b hhy hk ha hb hnm hrn).1 hb1
      simp [ctor, hg, hh, hq, hd, hsn, getEntry, bind, Except.bind, pure, Except.pure, hsp]
  · intro hl hb1
    cases IsStokes with
    | false =>
      obtain ⟨ev, hsp⟩ := (setParameters_complete p "" (dimension dl.qp_gradient 1)
        (dimension dl.qp_gradient 2) g hn q hy b hhy hk ha hb hnm hrn).2 hb1
      exact ⟨ev, by
        simp [ctor, hg, hh, hq, getEntry, bind, Except.bind, pure, Except.pure, hsp]⟩
    | true =>
      obtain ⟨sn, hsn⟩ := Option.isSome_iff_exists.1 (hs rfl)
      have hd := hl rfl
      obtain ⟨ev, hsp⟩ := (setParameters_complete p sn (dimension dl.qp_gradient 2)
        (dimension dl.qp_gradient 3) g hn q hy b hhy hk ha hb hnm hrn).2 hb1
      exact ⟨ev, by
        simp [ctor, hg, hh, hq, hd, hsn, getEntry, bind, Except.bind, pure, Except.pure, hsp]⟩

/-- C1 (as stated, refuted): for the Stokes-coupled evaluator built on layouts
that are not side layouts, with the exponent 0 <= 1, the constructor fails with
`std::logic_error`, which is no `InvalidParameter`; and with the exponent 3 > 1
and no entry "Transmissivity" it fails with `InvalidParameterName`, which is an
`InvalidParameter`. -/
theorem waterDischarge_ctor_logic_error_first :
    (stokesCellParams.hydrology.bind (fun hy => hy.potentialGradientNormExponent) = some 0
      ∧ (0 : ℚ) ≤ 1
      ∧ ctor true stokesCellParams cellLayouts
          = .error (.logic_error
              "Error! For coupling with StokesFO, the Layouts structure must be that of the basal side.\n")
      ∧ (Exc.logic_error
          "Error! For coupling with StokesFO, the Layouts structure must be that of the basal side.\n").isInvalidParameter
          = false)
    ∧ (noTransmissivityParams.hydrology.bind (fun hy => hy.potentialGradientNormExponent)
          = some 3
      ∧ (1 : ℚ) < 3
      ∧ ctor false noTransmissivityParams cellLayouts
          = .error (.InvalidParameterName "Transmissivity")
      ∧ (Exc.InvalidParameterName "Transmissivity").isInvalidParameter = true) := by
  refine ⟨⟨rfl, by norm_num, ?_, rfl⟩, ⟨rfl, by norm_num, ?_, rfl⟩⟩
  · simp [ctor, stokesCellParams, waterDischargeParams, cellLayouts, getEntry, bind,
      Except.bind, throw, throwThe, MonadExceptOf.throw]
  · simp [ctor, setParameters, noTransmissivityParams, waterDischargeParams, cellLayouts,
      getEntry, bind, Except.bind, pure, Except.pure]

/-- C1 (amended): provided every entry the constructor of
`HydrologyWaterDischarge` reads with `get<T>(name)` on some path is in the
parameter list and its sublist "FELIX Hydrology", it fails with an
`InvalidParameter` if and only if the layout check passes (not
`IsStokes`, or side layouts) and the exponent beta is <= 1; for beta > 1 it
never fails with an `InvalidParameter`; and a constructed evaluator needs the
gradient norm, and lists it among its dependent fields, exactly when
beta != 2. -/
theorem waterDischarge_ctor_invalidParameter_iff (IsStokes : Bool)
    (p : WaterDischargeParams α) (dl : Layouts) (hy : HydrologyList α) (b : α)
    (hp : p.complete IsStokes) (hhy : p.hydrology = some hy)
    (hb : hy.potentialGradientNormExponent = some b) :
    ((∃ e, ctor IsStokes p dl = .error e ∧ e.isInvalidParameter = true)
        ↔ ((IsStokes = true → dl.isSideLayouts = true) ∧ b ≤ 1))
    ∧ (1 < b → ∀ e, ctor IsStokes p dl = .error e → e.isInvalidParameter = false)
    ∧ (∀ ev, ctor IsStokes p dl = .ok ev →
        (ev.needsGradPhiNorm = true ↔ b ≠ 2)
        ∧ ev.dependentFields
            = p.gradPhiName.toList ++ p.hName.toList
              ++ (if b ≠ 2 then p.gradPhiNormName.toList else [])
              ++ (if ev.regularize then p.regularizationParamName.toList else [])) := by
  obtain ⟨h1, h2, h3⟩ := ctor_complete IsStokes p dl hy b hp hhy hb
  have key : (∃ e, ctor IsStokes p dl = .error e ∧ e.isInvalidParameter = true)
        ↔ ((IsStokes = true → dl.isSideLayouts = true) ∧ b ≤ 1) := by
    by_cases hl : IsStokes = true → dl.isSideLayouts = true
    · by_cases hb1 : b ≤ 1
      · rw [h2 hl hb1]
        exact ⟨fun _ => ⟨hl, hb1⟩, fun _ => ⟨_, rfl, rfl⟩⟩
      · obtain ⟨ev, hev⟩ := h3 hl (lt_of_not_le hb1)
        rw [hev]
        constructor
        · rintro ⟨e, he, _⟩
          exact absurd he (by simp)
        · rintro ⟨_, hb2⟩
          exact absurd hb2 hb1
    · have hl2 : IsStokes = true ∧ dl.isSideLayouts = false := by
        cases IsStokes <;> cases hd : dl.isSideLayouts <;> simp_all
      rw [h1 hl2]
      constructor
      · rintro ⟨e, he, hinv⟩
        have he2 := Except.error.inj he
        subst he2
        exact absurd hinv (by simp [Exc.isInvalidParameter])
      · rintro ⟨hl3, _⟩
        exact absurd hl3 hl
  refine ⟨key, ?_, ?_⟩
  · intro hb1 e he
    cases hinv : e.isInvalidParameter with
    | false => rfl
    | true => exact absurd (key.1 ⟨e, he, hinv⟩).2 (not_le_of_lt hb1)
  · intro ev hev
    obtain ⟨hy2, k, a, b2, g, hn, e1, _, _, e4, e5, e6, _, _, _, _, _, e12, e13, _, _, e16⟩ :=
      discharge_ctor_ok IsStokes p dl ev hev
    rw [hhy] at e1
    have hyeq := Option.some.inj e1
    subst hyeq
    rw [hb] at e4
    have hbeq := Option.some.inj e4
    subst hbeq
    refine ⟨?_, ?_⟩
    · rw [e12]
      by_cases h2 : b = 2 <;> simp [h2]
    · rw [e16, e13, e5, e6]
      by_cases h2 : b = 2 <;> simp [h2]

/-- C1 (amended), at a concrete input: the list the problem builds, with
beta = 3, on cell layouts: the evaluator is built and needs the gradient
norm. -/
theorem waterDischarge_ctor_invalidParameter_iff_witness :
    (waterDischargeParams 3).complete false
    ∧ ∀ e, ctor false (waterDischargeParams 3) cellLayouts = .error e →
        e.isInvalidParameter = false :=
  ⟨by simp [WaterDischargeParams.complete, waterDischargeParams],
   (waterDischarge_ctor_invalidParameter_iff false (waterDischargeParams 3) cellLayouts
      _ 3 (by simp [WaterDischargeParams.complete, waterDischargeParams]) rfl rfl).2.1
      (by norm_num)⟩

/-! ## HydrologyWaterDischarge: the cell kernel -/

theorem discharge_cell_entry (fn : ScalarFns α) (ev : HydrologyWaterDischarge α)
    (workset : Workset) (fd : WaterDischargeFields α) (cell qp dim : Nat)
    (hcell : cell < workset.numCells) (hqp : qp < ev.numQPs) (hdim : dim < ev.numDim) :
    evaluateFieldsCell fn ev workset fd [cell, qp, dim]
      = if ev.needsGradPhiNorm then
          -ev.k_0 * (fn.pow (fd.h [cell, qp]) ev.alpha + regularization ev fd)
            * fn.pow (fd.gradPhiNorm [cell, qp]) (ev.beta - 2) * fd.gradPhi [cell, qp, dim]
        else
          -ev.k_0 * (fn.pow (fd.h [cell, qp]) ev.alpha + regularization ev fd)
            * fd.gradPhi [cell, qp, dim] := by
  unfold evaluateFieldsCell
  cases hn : ev.needsGradPhiNorm
  · simp only [Bool.false_eq_true, if_false]
    exact forLoop3_get (fun c q d =>
      -ev.k_0 * (fn.pow (fd.h [c, q]) ev.alpha + regularization ev fd) * fd.gradPhi [c, q, d])
      workset.numCells ev.numQPs ev.numDim fd.q cell qp dim hcell hqp hdim
  · simp only [if_true]
    exact forLoop3_get (fun c q d =>
      -ev.k_0 * (fn.pow (fd.h [c, q]) ev.alpha + regularization ev fd)
        * fn.pow (fd.gradPhiNorm [c, q]) (ev.beta - 2) * fd.gradPhi [c, q, d])
      workset.numCells ev.numQPs ev.numDim fd.q cell qp dim hcell hqp hdim

theorem ctor_dischargeEv3 :
    ctor false (waterDischargeParams 3) cellLayouts = .ok dischargeEv3 := by
  norm_num [ctor, setParameters, waterDischargeParams, cellLayouts, dischargeEv3, dimension,
    getEntry, bind, Except.bind, pure, Except.pure, throw, throwThe, MonadExceptOf.throw]

/-- C7 (as stated, refuted): with Transmissivity 1, both exponents as
configured (a = 1, b = 3), h = 1, |grad phi| = 2 and grad phi = (2, 0), the
evaluator writes q = -4 in the first entry, where the formula with the exponent
b itself gives -16. -/
theorem waterDischarge_exponent_is_shifted :
    ctor false (waterDischargeParams 3) cellLayouts = .ok dischargeEv3
    ∧ evaluateFields false ratFns dischargeEv3 dischargeWorkset dischargeFields [0, 0, 0] = -4
    ∧ dischargeAsStated ratFns 1 1 3 (dischargeFields.h [0, 0])
        (dischargeFields.gradPhiNorm [0, 0]) (dischargeFields.gradPhi [0, 0, 0]) = -16 := by
  refine ⟨ctor_dischargeEv3, ?_, ?_⟩
  · have h := discharge_cell_entry ratFns dischargeEv3 dischargeWorkset dischargeFields
      0 0 0 (by decide) (by decide) (by decide)
    simp only [evaluateFields, Bool.false_eq_true, if_false]
    rw [h]
    norm_num [dischargeEv3, dischargeFields, regularization, ratFns, powQ]
  · norm_num [dischargeAsStated, dischargeFields, ratFns, powQ]

/-- C7 (amended): with regularization off, the cell kernel of
`HydrologyWaterDischarge` computes, for every cell, quadrature point and
dimension, q = -k * h^a * |grad(phi)|^(b-2) * grad(phi), with k "Transmissivity",
a "Darcy Law: Water Thickness Exponent" and b "Darcy Law: Potential Gradient
Norm Exponent"; for b = 2 the factor |grad(phi)|^0 is left out. -/
theorem waterDischarge_cell_formula (fn : ScalarFns α) (p : WaterDischargeParams α)
    (dl : Layouts) (ev : HydrologyWaterDischarge α) (workset : Workset)
    (fd : WaterDischargeFields α) (hy : HydrologyList α) (k a b : α)
    (hctor : ctor false p dl = .ok ev)
    (hhy : p.hydrology = some hy) (hk : hy.transmissivity = some k)
    (ha : hy.waterThicknessExponent = some a) (hb : hy.potentialGradientNormExponent = some b)
    (hreg : hy.regularizeWithContinuation.getD false = false)
    (cell qp dim : Nat)
    (hcell : cell < workset.numCells) (hqp : qp < ev.numQPs) (hdim : dim < ev.numDim) :
    evaluateFields false fn ev workset fd [cell, qp, dim]
      = -k * fn.pow (fd.h [cell, qp]) a
          * (if b = 2 then 1 else fn.pow (fd.gradPhiNorm [cell, qp]) (b - 2))
          * fd.gradPhi [cell, qp, dim] := by
  obtain ⟨hy2, k2, a2, b2, _, _, e1, e2, e3, e4, _, _, _, _, ek, ea, eb, en, er, _, _, _⟩ :=
    discharge_ctor_ok false p dl ev hctor
  rw [hhy] at e1
  have hyeq := Option.some.inj e1
  subst hyeq
  rw [hk] at e2
  rw [ha] at e3
  rw [hb] at e4
  have hk2 := Option.some.inj e2
  have ha2 := Option.some.inj e3
  have hb2 := Option.some.inj e4
  subst hk2 ha2 hb2
  have h := discharge_cell_entry fn ev workset fd cell qp dim hcell hqp hdim
  simp only [evaluateFields, Bool.false_eq_true, if_false]
  rw [h, en]
  have hreg0 : regularization ev fd = 0 := by simp [regularization, er, hreg]
  rw [hreg0, ek, ea, eb]
  by_cases h3 : b = 2 <;> simp [h3]

/-- C7 (amended), at a concrete input: b = 3 on a workset of one cell. -/
theorem waterDischarge_cell_formula_witness :
    ctor false (waterDischargeParams 3) cellLayouts = .ok dischargeEv3
    ∧ evaluateFields false ratFns dischargeEv3 dischargeWorkset dischargeFields [0, 1, 0]
      = -1 * ratFns.pow (dischargeFields.h [0, 1]) 1
          * (if (3 : ℚ) = 2 then 1 else ratFns.pow (dischargeFields.gradPhiNorm [0, 1]) (3 - 2))
          * dischargeFields.gradPhi [0, 1, 0] :=
  ⟨ctor_dischargeEv3,
   waterDischarge_cell_formula ratFns (waterDischargeParams 3) cellLayouts dischargeEv3
     dischargeWorkset dischargeFields _ 1 1 3 ctor_dischargeEv3 rfl rfl rfl rfl rfl 0 1 0
     (by decide) (by decide) (by decide)⟩

end HydrologyWaterDischarge

/-! ## EffectivePressure -/

namespace EffectivePressure

variable {α : Type} [LinearOrderedField α]

theorem pressure_ctor_cell_ok (Surrogate : Bool) (p : EffectivePressureParams α) (dl : Layouts)
    (self ev : EffectivePressure α) (h : ctor false Surrogate p dl self = .ok ev) :
    ev.use_h = (if Surrogate then self.use_h else p.useWaterThickness.getD false)
    ∧ ev.regularized = (if Surrogate then p.regularizeWithContinuation.getD false else false)
    ∧ ev.numNodes = dimension dl.node_scalar 1
    ∧ ev.rho_i = p.physics.iceDensity.getD 910
    ∧ ev.rho_w = p.physics.waterDensity.getD 1000
    ∧ ev.g = p.physics.gravityAcceleration.getD (98 / 10) := by
  unfold ctor at h
  simp only [Bool.false_and, Bool.false_eq_true, if_false] at h
  have hev := Except.ok.inj h
  subst hev
  exact ⟨rfl, rfl, rfl, rfl, rfl, rfl⟩

theorem pressure_cell_entry (fn : ScalarFns α) (ev : EffectivePressure α)
    (workset : Workset) (fd : EffectivePressureFields α) (cell node : Nat)
    (hcell : cell < workset.numCells) (hnode : node < ev.numNodes) :
    evaluateFieldsCell false fn ev workset fd [cell, node]
      = ev.rho_i * ev.g * fd.H [cell, node]
          + ev.rho_w * ev.g * (fd.z_s [cell, node] - fd.H [cell, node])
          + (ev.rho_w * ev.g / 1000) * (if ev.use_h then fd.h [cell, node] else 0)
          - fd.phi [cell, node] := by
  unfold evaluateFieldsCell
  simp only [Bool.false_eq_true, if_false]
  exact forLoop2_get (fun c n =>
      ev.rho_i * ev.g * fd.H [c, n] + ev.rho_w * ev.g * (fd.z_s [c, n] - fd.H [c, n])
        + (ev.rho_w * ev.g / 1000) * (if ev.use_h then fd.h [c, n] else 0) - fd.phi [c, n])
    workset.numCells ev.numNodes fd.N cell node hcell hnode

theorem pressure_cell_surrogate_entry (fn : ScalarFns α) (ev : EffectivePressure α)
    (workset : Workset) (fd : EffectivePressureFields α) (cell node : Nat)
    (hcell : cell < workset.numCells) (hnode : node < ev.numNodes) :
    evaluateFieldsCell true fn ev workset fd [cell, node]
      = (1 - surrogateAlpha fn ev fd) * ev.rho_i * ev.g * fd.H [cell, node] := by
  unfold evaluateFieldsCell
  simp only [if_true]
  exact forLoop2_get (fun c n => (1 - surrogateAlpha fn ev fd) * ev.rho_i * ev.g * fd.H [c, n])
    workset.numCells ev.numNodes fd.N cell node hcell hnode

theorem pressure_side_surrogate_entry (fn : ScalarFns α) (ev : EffectivePressure α)
    (workset : Workset) (fd : EffectivePressureFields α) (sideSet : List SideStruct)
    (hset : workset.sideSets.lookup ev.basalSideName = some sideSet)
    (s : SideStruct) (hs : s ∈ sideSet) (node : Nat) (hnode : node < ev.numNodes) :
    evaluateFieldsSide true fn ev workset fd [s.elem_LID, s.side_local_id, node]
      = (1 - surrogateAlpha fn ev fd) * ev.rho_i * ev.g
          * fd.H [s.elem_LID, s.side_local_id, node] := by
  unfold evaluateFieldsSide
  rw [hset]
  simp only [if_true]
  exact forEachSide_get
    (fun c sd n => (1 - surrogateAlpha fn ev fd) * ev.rho_i * ev.g * fd.H [c, sd, n])
    sideSet ev.numNodes fd.N s hs node hnode

/-- C8: the non-surrogate cell evaluation of `EffectivePressure` computes, at
every cell and node, N = p_i - p_w with p_i = rho_i*g*H and
p_w = phi - rho_w*g*(z_b + h/1000), where z_b = z_s - H and the h term is there
only when "Use Water Thickness In Effective Pressure Formula" is true; when it
is not, N = (rho_i*g*H + rho_w*g*z_b) - phi, the definition of the problem. -/
theorem effectivePressure_cell_formula (fn : ScalarFns α) (p : EffectivePressureParams α)
    (dl : Layouts) (self ev : EffectivePressure α) (workset : Workset)
    (fd : EffectivePressureFields α)
    (hctor : ctor false false p dl self = .ok ev)
    (cell node : Nat) (hcell : cell < workset.numCells) (hnode : node < ev.numNodes) :
    evaluateFields false false fn ev workset fd [cell, node]
        = ev.rho_i * ev.g * fd.H [cell, node]
          - (fd.phi [cell, node]
              - ev.rho_w * ev.g
                * ((fd.z_s [cell, node] - fd.H [cell, node])
                    + (if p.useWaterThickness.getD false then fd.h [cell, node] else 0) / 1000))
    ∧ (p.useWaterThickness.getD false = false →
        evaluateFields false false fn ev workset fd [cell, node]
          = (ev.rho_i * ev.g * fd.H [cell, node]
              + ev.rho_w * ev.g * (fd.z_s [cell, node] - fd.H [cell, node]))
            - fd.phi [cell, node]) := by
  obtain ⟨hu, _, _, _, _, _⟩ := pressure_ctor_cell_ok false p dl self ev hctor
  have h := pressure_cell_entry fn ev workset fd cell node hcell hnode
  simp only [Bool.false_eq_true, if_false] at hu
  simp only [evaluateFields, Bool.false_eq_true, if_false]
  rw [h, hu]
  constructor
  · ring
  · intro hoff
    rw [hoff]
    simp

/-- C8, at a concrete input: the default densities and gravity on a workset
of one cell, with the water thickness in the formula. -/
theorem effectivePressure_cell_formula_witness :
    ctor false false pressureParams cellLayouts pressureEv = .ok pressureEv
    ∧ evaluateFields false false ratFns pressureEv oneCellWorkset pressureFields [0, 1]
        = pressureEv.rho_i * pressureEv.g * pressureFields.H [0, 1]
          - (pressureFields.phi [0, 1]
              - pressureEv.rho_w * pressureEv.g
                * ((pressureFields.z_s [0, 1] - pressureFields.H [0, 1])
                    + (if pressureParams.useWaterThickness.getD false then
                        pressureFields.h [0, 1] else 0) / 1000)) := by
  have hc : ctor false false pressureParams cellLayouts pressureEv = .ok pressureEv := by
    norm_num [ctor, pressureParams, pressureEv, cellLayouts, dimension]
  exact ⟨hc, (effectivePressure_cell_formula ratFns pressureParams cellLayouts pressureEv
    pressureEv oneCellWorkset pressureFields hc 0 1 (by decide) (by decide)).1⟩

/-- C9: the surrogate `EffectivePressure` computes N = p_i - p_w with
p_i = rho_i*g*H and p_w = a*p_i, that is N = (1 - a)*rho_i*g*H, at every node of
every cell (cell variant) and of every listed side (side variant), where a is
alpha when the regularization is off and alpha*sqrt(regularization parameter)
when it is on; so N = 0 when a = 1 and N = rho_i*g*H when a = 0. -/
theorem effectivePressure_surrogate_formula (fn : ScalarFns α) (ev : EffectivePressure α)
    (workset : Workset) (fd : EffectivePressureFields α) (a : α)
    (ha : a = if ev.regularized then fd.alphaParam [0] * fn.sqrt (fd.regularizationParam [0])
              else fd.alphaParam [0]) :
    (∀ cell node, cell < workset.numCells → node < ev.numNodes →
        evaluateFields false true fn ev workset fd [cell, node]
            = ev.rho_i * ev.g * fd.H [cell, node] - a * (ev.rho_i * ev.g * fd.H [cell, node])
        ∧ evaluateFields false true fn ev workset fd [cell, node]
            = (1 - a) * ev.rho_i * ev.g * fd.H [cell, node]
        ∧ (a = 1 → evaluateFields false true fn ev workset fd [cell, node] = 0)
        ∧ (a = 0 → evaluateFields false true fn ev workset fd [cell, node]
                    = ev.rho_i * ev.g * fd.H [cell, node]))
    ∧ (∀ sideSet, workset.sideSets.lookup ev.basalSideName = some sideSet →
        ∀ s ∈ sideSet, ∀ node, node < ev.numNodes →
          evaluateFields true true fn ev workset fd [s.elem_LID, s.side_local_id, node]
              = ev.rho_i * ev.g * fd.H [s.elem_LID, s.side_local_id, node]
                - a * (ev.rho_i * ev.g * fd.H [s.elem_LID, s.side_local_id, node])
          ∧ evaluateFields true true fn ev workset fd [s.elem_LID, s.side_local_id, node]
              = (1 - a) * ev.rho_i * ev.g * fd.H [s.elem_LID, s.side_local_id, node]
          ∧ (a = 1 →
              evaluateFields true true fn ev workset fd [s.elem_LID, s.side_local_id, node] = 0)
          ∧ (a = 0 →
              evaluateFields true true fn ev workset fd [s.elem_LID, s.side_local_id, node]
                = ev.rho_i * ev.g * fd.H [s.elem_LID, s.side_local_id, node])) := by
  have hsa : surrogateAlpha fn ev fd = a := by
    rw [ha]
    rfl
  constructor
  · intro cell node hcell hnode
    have h := pressure_cell_surrogate_entry fn ev workset fd cell node hcell hnode
    simp only [evaluateFields, Bool.false_eq_true, if_false]
    rw [h, hsa]
    refine ⟨by ring, rfl, ?_, ?_⟩
    · intro h1
      rw [h1]
      ring
    · intro h0
      rw [h0]
      ring
  · intro sideSet hset s hs node hnode
    have h := pressure_side_surrogate_entry fn ev workset fd sideSet hset s hs node hnode
    simp only [evaluateFields, if_true]
    rw [h, hsa]
    refine ⟨by ring, rfl, ?_, ?_⟩
    · intro h1
      rw [h1]
      ring
    · intro h0
      rw [h0]
      ring

/-- C9, at a concrete input: alpha = 1/2 without regularization, on the cell
and on the side of a workset of one cell. -/
theorem effectivePressure_surrogate_formula_witness :
    evaluateFields false true ratFns surrogateEv oneCellWorkset pressureFields [0, 1]
        = (1 - 1 / 2) * surrogateEv.rho_i * surrogateEv.g * pressureFields.H [0, 1]
    ∧ evaluateFields true true ratFns surrogateEv oneCellWorkset pressureFields [0, 0, 1]
        = (1 - 1 / 2) * surrogateEv.rho_i * surrogateEv.g * pressureFields.H [0, 0, 1] := by
  have h := effectivePressure_surrogate_formula ratFns surrogateEv oneCellWorkset
    pressureFields (1 / 2) (by simp [surrogateEv, pressureFields])
  refine ⟨(h.1 0 1 (by decide) (by decide)).2.1, ?_⟩
  exact (h.2 [⟨0, 0⟩] (by simp [oneCellWorkset, surrogateEv]) ⟨0, 0⟩ (by simp) 1
    (by decide)).2.1

end EffectivePressure

/-! ## BasalFrictionCoefficient: the constructor -/

namespace BasalFrictionCoefficient

variable {α : Type} [LinearOrderedField α]

theorem readParameters_coulomb (fn : ScalarFns α) (ev : BasalFrictionCoefficient α)
    (fd : BasalFrictionFields α) (init : CoulombLocals α)
    (hty : ev.beta_type = .REGULARIZED_COULOMB) (hlog : ev.logParameters = false) :
    readParameters fn ev fd init
      = if fd.powerParam [0] < 0 then
          .error (.InvalidParameter
            "\nError in FELIX::BasalFrictionCoefficient: 'Power Exponent' must be >= 0.\n")
        else if fd.muParam [0] < 0 then
          .error (.InvalidParameter
            "\nError in FELIX::BasalFrictionCoefficient: 'Coulomb Friction Coefficient' must be >= 0.\n")
        else if ev.distributedLambda = false ∧ fd.lambdaParam [0] < 0 then
          .error (.InvalidParameter
            "\nError in FELIX::BasalFrictionCoefficient: \"Bed Roughness\" must be >= 0.\n")
        else
          .ok { mu := fd.muParam [0], power := fd.powerParam [0],
                lambda := if ev.distributedLambda then init.lambda else fd.lambdaParam [0] } := by
  unfold readParameters
  by_cases hp : fd.powerParam [0] < 0
  · simp [hty, hlog, hp]
  · by_cases hm : fd.muParam [0] < 0
    · simp [hty, hlog, hp, hm]
    · cases hd : ev.distributedLambda
      · by_cases hl : fd.lambdaParam [0] < 0
        · simp [hty, hlog, hp, hm, hd, hl]
        · simp [hty, hlog, hp, hm, hd, hl]
      · simp [hty, hlog, hp, hm, hd]

/-- C3: for the REGULARIZED COULOMB law without log-scaled parameters,
`evaluateFields` fails with `InvalidParameter` if and only if power < 0, or
mu < 0, or the bed roughness is not distributed and lambda < 0, and it fails in
no other way; non-negative values, 0 among them, are accepted; and with
distributed bed roughness the parameter lambda plays no part in the failure. -/
theorem basalFriction_coulomb_parameter_check (IsStokes : Bool) (fn : ScalarFns α)
    (ev : BasalFrictionCoefficient α) (workset : Workset) (fd : BasalFrictionFields α)
    (init : CoulombLocals α)
    (hty : ev.beta_type = .REGULARIZED_COULOMB) (hlog : ev.logParameters = false) :
    ((∃ msg, evaluateFields IsStokes fn ev workset fd init = .error (.InvalidParameter msg))
        ↔ (fd.powerParam [0] < 0 ∨ fd.muParam [0] < 0
            ∨ (ev.distributedLambda = false ∧ fd.lambdaParam [0] < 0)))
    ∧ (∀ e, evaluateFields IsStokes fn ev workset fd init = .error e →
        ∃ msg, e = .InvalidParameter msg)
    ∧ (0 ≤ fd.powerParam [0] → 0 ≤ fd.muParam [0] →
        (ev.distributedLambda = true ∨ 0 ≤ fd.lambdaParam [0]) →
        ∃ beta, evaluateFields IsStokes fn ev workset fd init = .ok beta)
    ∧ (ev.distributedLambda = true →
        ((∃ msg, evaluateFields IsStokes fn ev workset fd init = .error (.InvalidParameter msg))
          ↔ (fd.powerParam [0] < 0 ∨ fd.muParam [0] < 0))) := by
  have hr := readParameters_coulomb fn ev fd init hty hlog
  unfold evaluateFields
  rw [hr]
  by_cases hp : fd.powerParam [0] < 0
  · simp [hp]
  · by_cases hm : fd.muParam [0] < 0
    · simp [hp, hm]
    · cases hd : ev.distributedLambda
      · by_cases hl : fd.lambdaParam [0] < 0
        · simp [hp, hm, hl]
        · simp only [hp, hm, hl, and_false, if_false, false_or, or_false]
          refine ⟨?_, ?_, ?_, ?_⟩
          · cases IsStokes <;> simp
          · cases IsStokes <;> simp
          · intro _ _ _
            cases IsStokes <;> simp
          · intro h
            exact absurd h (by simp)
      · simp only [hp, hm, Bool.true_eq_false, false_and, if_false, false_or, or_false]
        refine ⟨?_, ?_, ?_, ?_⟩
        · cases IsStokes <;> simp
        · cases IsStokes <;> simp
        · intro _ _ _
          cases IsStokes <;> simp
        · intro _
          cases IsStokes <;> simp

/-- C3, at a concrete input: mu = 1, lambda = 1, power = 2 on the side set. -/
theorem basalFriction_coulomb_parameter_check_witness :
    coulombEv.beta_type = .REGULARIZED_COULOMB ∧ coulombEv.logParameters = false
    ∧ ∃ beta, evaluateFields true ratFns coulombEv oneCellWorkset coulombFields ⟨0, 0, 0⟩
        = .ok beta :=
  ⟨rfl, rfl,
   (basalFriction_coulomb_parameter_check true ratFns coulombEv oneCellWorkset coulombFields
      ⟨0, 0, 0⟩ rfl rfl).2.2.1
     (by norm_num [coulombFields]) (by norm_num [coulombFields])
     (Or.inr (by norm_num [coulombFields]))⟩

/-! ## BasalFrictionCoefficient: the regularized Coulomb law on a side set -/

theorem sideLoop_eq_forEach (fn : ScalarFns α) (ev : BasalFrictionCoefficient α)
    (fd : BasalFrictionFields α) (mu lambda power : α) (hty : ev.beta_type ≠ .GIVEN_CONSTANT)
    (sideSet : List SideStruct) (beta : MDField α) :
    sideLoop fn ev fd mu lambda power sideSet beta
      = forEach sideSet (sideBody fn ev fd mu lambda power) beta := by
  induction sideSet generalizing beta with
  | nil => rfl
  | cons s rest ih =>
    rw [sideLoop, if_neg hty, ih]
    rfl

theorem evaluateFieldsSide_coulomb_entry (fn : ScalarFns α) (ev : BasalFrictionCoefficient α)
    (workset : Workset) (fd : BasalFrictionFields α) (mu lambda power : α)
    (hty : ev.beta_type = .REGULARIZED_COULOMB) (hz : ev.zero_on_floating = false)
    (hst : ev.use_stereographic_map = false) (sideSet : List SideStruct)
    (hset : workset.sideSets.lookup ev.basalSideName = some sideSet)
    (s : SideStruct) (hs : s ∈ sideSet) (ipt : Nat)
    (hipt : ipt < (if ev.nodal then ev.numNodes else ev.numQPs)) :
    evaluateFieldsSide fn ev workset fd mu lambda power [s.elem_LID, s.side_local_id, ipt]
      = mu * fd.N [s.elem_LID, s.side_local_id, ipt]
          * fn.pow (fd.u_norm [s.elem_LID, s.side_local_id, ipt]
              / (fd.u_norm [s.elem_LID, s.side_local_id, ipt]
                  + lambda * fn.pow (fd.ice_softness [s.elem_LID, s.side_local_id]
                      * fd.N [s.elem_LID, s.side_local_id, ipt]) (1 / power))) power
          / fd.u_norm [s.elem_LID, s.side_local_id, ipt] := by
  unfold evaluateFieldsSide
  rw [hset]
  simp only
  rw [sideLoop_eq_forEach fn ev fd mu lambda power (by rw [hty]; decide)]
  have hbody : sideBody fn ev fd mu lambda power
      = fun it => forLoop (if ev.nodal then ev.numNodes else ev.numQPs) (fun l t =>
          t.set [it.elem_LID, it.side_local_id, l]
            ((fun c sd i => mu * fd.N [c, sd, i]
                * fn.pow (fd.u_norm [c, sd, i]
                    / (fd.u_norm [c, sd, i]
                        + lambda * fn.pow (fd.ice_softness [c, sd] * fd.N [c, sd, i]) (1 / power)))
                    power
                / fd.u_norm [c, sd, i]) it.elem_LID it.side_local_id l)) := by
    funext it beta
    simp only [sideBody, hty, hz, hst, Bool.false_eq_true, if_false]
  rw [hbody]
  exact forEachSide_get (fun c sd i => mu * fd.N [c, sd, i]
      * fn.pow (fd.u_norm [c, sd, i]
          / (fd.u_norm [c, sd, i]
              + lambda * fn.pow (fd.ice_softness [c, sd] * fd.N [c, sd, i]) (1 / power))) power
      / fd.u_norm [c, sd, i]) sideSet _ fd.beta s hs ipt hipt

theorem ctor_coulombEv :
    ctor true ratFns (frictionParams (some "Regularized Coulomb")) sideLayouts frictionSelf
      = .ok coulombEv := by
  rfl

/-- C10 (the code at the failing input): on the side of the workset, with
mu = 1, N = 1, |u| = 1, A = 4, lambda = 1 and power 2, the evaluator built from
"Regularized Coulomb" writes beta = 1/9, since it computes
(A*N)^(1/p) = 2 where the law has A*N^(1/p) = 4; the law gives 1/25. -/
theorem basalFriction_coulomb_side_softness_inside_power :
    ctor true ratFns (frictionParams (some "Regularized Coulomb")) sideLayouts frictionSelf
      = .ok coulombEv
    ∧ (∃ beta, evaluateFields true ratFns coulombEv oneCellWorkset coulombFields ⟨0, 0, 0⟩
          = .ok beta ∧ beta [0, 0, 0] = 1 / 9)
    ∧ coulombAsStated ratFns 1 (coulombFields.N [0, 0, 0]) (coulombFields.u_norm [0, 0, 0]) 1
        (coulombFields.ice_softness [0, 0]) 2 = 1 / 25 := by
  have h1 : exactRoot 2 4 = some 2 := by decide
  have h2 : exactRoot 2 1 = some 1 := by decide
  have h3 : Int.toNat 4 = 4 := rfl
  have h4 : Int.toNat 1 = 1 := rfl
  refine ⟨ctor_coulombEv, ?_, ?_⟩
  · have hr := readParameters_coulomb ratFns coulombEv coulombFields ⟨0, 0, 0⟩ rfl rfl
    have hr2 : readParameters ratFns coulombEv coulombFields ⟨0, 0, 0⟩ = .ok ⟨1, 1, 2⟩ := by
      rw [hr]
      norm_num [coulombFields, coulombEv, frictionSelf]
    refine ⟨evaluateFieldsSide ratFns coulombEv oneCellWorkset coulombFields 1 1 2, ?_, ?_⟩
    · simp only [evaluateFields, hr2, if_true]
    · have he := evaluateFieldsSide_coulomb_entry ratFns coulombEv oneCellWorkset coulombFields
        1 1 2 rfl rfl rfl [⟨0, 0⟩] rfl ⟨0, 0⟩ (by simp) 0 (by decide)
      rw [he]
      norm_num [coulombFields, ratFns, powQ, h1, h2, h3, h4]
  · norm_num [coulombAsStated, coulombFields, ratFns, powQ, h1, h2, h3, h4]

end BasalFrictionCoefficient

/-! ## Hydrology: registration of the required fields -/

namespace Hydrology

theorem lookup_append_absent {β : Type} (m : List (String × β)) (k k2 : String) (v : β)
    (h : m.any (fun e => e.1 == k) = false) :
    (m ++ [(k, v)]).lookup k2 = if k2 = k then some v else m.lookup k2 := by
  induction m with
  | nil =>
    by_cases hk : k2 = k
    · simp [List.lookup, hk]
    · have h3 : (k2 == k) = false := by simp [hk]
      simp [List.lookup, h3, hk]
  | cons e rest ih =>
    obtain ⟨a, b⟩ := e
    simp only [List.any_cons, Bool.or_eq_false_iff, beq_eq_false_iff_ne, ne_eq] at h
    obtain ⟨hak, hrest⟩ := h
    simp only [List.cons_append, List.lookup_cons]
    by_cases h2 : k2 = a
    · subst h2
      simp [hak]
    · have : (k2 == a) = false := by simp [h2]
      rw [this]
      exact ih hrest

theorem lookup_append_present {β : Type} (m : List (String × β)) (k k2 : String)
    (h : m.any (fun e => e.1 == k) = true) (hk : k2 = k) :
    (m.lookup k2).isSome = true := by
  subst hk
  induction m with
  | nil => simp at h
  | cons e rest ih =>
    obtain ⟨a, b⟩ := e
    simp only [List.lookup_cons]
    by_cases h2 : k2 = a
    · subst h2
      simp
    · have h3 : (k2 == a) = false := by simp [h2]
      rw [h3]
      simp only [List.any_cons, Bool.or_eq_true, beq_iff_eq] at h
      rcases h with h | h
      · exact absurd h.symm h2
      · exact ih h

theorem lookup_map_assign {β : Type} (m : List (String × β)) (k k2 : String) (v : β) :
    (m.map (fun e => if e.1 == k then (k, v) else e)).lookup k2
      = if k2 = k then (m.lookup k2).map (fun _ => v) else m.lookup k2 := by
  induction m with
  | nil => simp
  | cons e rest ih =>
    obtain ⟨a, b⟩ := e
    by_cases hak : a = k
    · subst hak
      by_cases h2 : k2 = a
      · subst h2
        simp [List.lookup_cons]
      · have h3 : (k2 == a) = false := by simp [h2]
        simp only [List.map_cons, beq_self_eq_true, if_true, List.lookup_cons, h3, ih, h2,
          if_false]
    · have h4 : (a == k) = false := by simp [hak]
      simp only [List.map_cons, h4, Bool.false_eq_true, if_false, List.lookup_cons, ih]
      by_cases h2 : k2 = a
      · subst h2
        simp [hak]
      · have h3 : (k2 == a) = false := by simp [h2]
        simp only [h3]

theorem mapGet_mapAssign_true (m : List (String × Bool)) (k k2 : String) :
    mapGet (mapAssign m k true) k2 = (decide (k2 = k) || mapGet m k2) := by
  unfold mapGet mapAssign
  cases h : m.any (fun e => e.1 == k)
  · simp only [Bool.false_eq_true, if_false]
    rw [lookup_append_absent m k k2 true h]
    by_cases hk : k2 = k <;> simp [hk]
  · simp only [if_true]
    rw [lookup_map_assign]
    by_cases hk : k2 = k
    · have hs := lookup_append_present m k k2 h hk
      subst hk
      cases hl : m.lookup k2 with
      | none => simp [hl] at hs
      | some b => simp
    · simp [hk]

theorem mapGet_mapInsert_false (m : List (String × Bool)) (k k2 : String) :
    mapGet (mapInsert m k false) k2 = mapGet m k2 := by
  unfold mapGet mapInsert
  cases h : m.any (fun e => e.1 == k)
  · simp only [Bool.false_eq_true, if_false]
    rw [lookup_append_absent m k k2 false h]
    by_cases hk : k2 = k
    · subst hk
      have hn : m.lookup k2 = none := by
        cases hl : m.lookup k2 with
        | none => rfl
        | some b =>
          exfalso
          have hmem : (k2, b) ∈ m := by
            clear h
            induction m with
            | nil => simp at hl
            | cons e rest ih =>
              obtain ⟨a, c⟩ := e
              simp only [List.lookup_cons] at hl
              by_cases h2 : k2 = a
              · subst h2
                simp at hl
                simp [hl]
              · have h3 : (k2 == a) = false := by simp [h2]
                rw [h3] at hl
                exact List.mem_cons_of_mem _ (ih hl)
          have : m.any (fun e => e.1 == k2) = true := by
            rw [List.any_eq_true]
            exact ⟨(k2, b), hmem, by simp⟩
          rw [h] at this
          exact absurd this (by simp)
      simp [hn]
    · simp [hk]
  · simp

theorem registerState_invalidValue_iff (fieldType stateName meshPart : String)
    (isDist isParam : Bool) :
    (∃ msg, registerState fieldType stateName meshPart isDist isParam
        = .error (.InvalidParameterValue msg))
      ↔ fieldType ∉ validFieldTypes := by
  unfold registerState
  simp only [validFieldTypes, List.mem_cons, List.mem_singleton, List.not_mem_nil, or_false,
    not_or]
  by_cases h1 : fieldType = "Elem Scalar"
  · subst h1
    cases isParam <;> simp
  · by_cases h2 : fieldType = "Node Scalar"
    · subst h2
      simp
    · by_cases h3 : fieldType = "Elem Vector"
      · subst h3
        cases isParam <;> simp
      · by_cases h4 : fieldType = "Node Vector"
        · subst h4
          cases isParam <;> simp
        · simp [h1, h2, h3, h4]

theorem registerState_logic_error_iff (fieldType stateName meshPart : String)
    (isDist isParam : Bool) (hvalid : fieldType ∈ validFieldTypes) :
    (∃ msg, registerState fieldType stateName meshPart isDist isParam
        = .error (.logic_error msg))
      ↔ (isParam = true ∧ fieldType ≠ "Node Scalar") := by
  unfold registerState
  simp only [validFieldTypes, List.mem_cons, List.mem_singleton, List.not_mem_nil,
    or_false] at hvalid
  rcases hvalid with h | h | h | h <;> subst h <;> cases isParam <;> simp

theorem requireEvaluatedField_error_iff (fieldManagerChoice : FieldManagerChoice)
    (evaluatedFields : FieldEvaluator → List String) (st : RegistrationState) (e : Exc) :
    requireEvaluatedField fieldManagerChoice evaluatedFields st = .error e
      ↔ (e = .NullReferenceError "ev" ∧ fieldManagerChoice = .BUILD_RESID_FM
          ∧ st.ev = none) := by
  unfold requireEvaluatedField
  by_cases hf : fieldManagerChoice = .BUILD_RESID_FM
  · cases hev : st.ev with
    | none =>
      simp only [hf, if_true, and_true, true_and]
      constructor
      · intro h
        exact (Except.error.inj h).symm
      · intro h
        rw [h]
    | some ev =>
      simp only [hf, if_true]
      cases hl : evaluatedFields ev <;> simp
  · simp [hf]

theorem requireEvaluatedField_ok (fieldManagerChoice : FieldManagerChoice)
    (evaluatedFields : FieldEvaluator → List String) (st st2 : RegistrationState)
    (h : requireEvaluatedField fieldManagerChoice evaluatedFields st = .ok st2) :
    st2.is_dist_param = st.is_dist_param ∧ st2.is_dirichlet_field = st.is_dirichlet_field
    ∧ st2.ev = st.ev ∧ st2.evaluators = st.evaluators := by
  unfold requireEvaluatedField at h
  by_cases hf : fieldManagerChoice = .BUILD_RESID_FM
  · cases hev : st.ev with
    | none =>
      simp [hf, hev] at h
    | some ev =>
      simp only [hf, if_true, hev] at h
      cases hl : evaluatedFields ev with
      | nil =>
        simp only [hl] at h
        have h2 := Except.ok.inj h
        subst h2
        exact ⟨rfl, rfl, hev, rfl⟩
      | cons tag rest =>
        simp only [hl] at h
        have h2 := Except.ok.inj h
        subst h2
        exact ⟨rfl, rfl, by simp [hev], rfl⟩
  · simp only [hf, if_false] at h
    have h2 := Except.ok.inj h
    subst h2
    exact ⟨rfl, rfl, rfl, rfl⟩

theorem saveOutputField_error_iff (fieldManagerChoice : FieldManagerChoice)
    (evaluatedFields : FieldEvaluator → List String) (stateName : String) (nodal_state : Bool)
    (isDist isDirichlet : Bool) (st : RegistrationState) (e : Exc) :
    saveOutputField fieldManagerChoice evaluatedFields stateName nodal_state isDist isDirichlet st
        = .error e
      ↔ (e = .NullReferenceError "ev" ∧ fieldManagerChoice = .BUILD_RESID_FM
          ∧ isDist = true ∧ isDirichlet = true ∧ st.ev = none) := by
  unfold saveOutputField
  rw [requireEvaluatedField_error_iff]
  cases isDist <;> cases isDirichlet <;> simp [registerEvaluator]

theorem saveOutputField_ok (fieldManagerChoice : FieldManagerChoice)
    (evaluatedFields : FieldEvaluator → List String) (stateName : String) (nodal_state : Bool)
    (isDist isDirichlet : Bool) (st st2 : RegistrationState)
    (h : saveOutputField fieldManagerChoice evaluatedFields stateName nodal_state isDist
      isDirichlet st = .ok st2) :
    st2.is_dist_param = st.is_dist_param ∧ st2.is_dirichlet_field = st.is_dirichlet_field
    ∧ ((st.ev = none ↔ st.evaluators = []) → (st2.ev = none ↔ st2.evaluators = [])) := by
  unfold saveOutputField at h
  obtain ⟨h1, h2, h3, h4⟩ := requireEvaluatedField_ok _ _ _ _ h
  rw [h1, h2, h3, h4]
  cases isDist <;> cases isDirichlet <;> simp [registerEvaluator]

theorem loadInputField_maps (stateName fieldName : String) (isParam : Bool)
    (st : RegistrationState) :
    (loadInputField stateName fieldName isParam st).is_dist_param = st.is_dist_param
    ∧ (loadInputField stateName fieldName isParam st).is_dirichlet_field
        = st.is_dirichlet_field
    ∧ ((loadInputField stateName fieldName isParam st).ev = none
        ↔ (loadInputField stateName fieldName isParam st).evaluators = []) := by
  cases isParam <;> simp [loadInputField, registerEvaluator]

/-- One iteration of the loop fails exactly when the registration of the state
fails, with its exception, or when the state is registered and the block of the
output fields dereferences the null `ev`. -/
theorem registerField_error (fieldManagerChoice : FieldManagerChoice)
    (evaluatedFields : FieldEvaluator → List String) (f : FieldList) (st : RegistrationState)
    (husage : f.fieldUsage.getD "Input" ≠ "Unused") (e : Exc) :
    registerField fieldManagerChoice evaluatedFields f st = .error e
      ↔ (registerState f.fieldType f.fieldName
          (if mapGet st.is_dist_param f.fieldName then
            (st.dist_params_name_to_mesh_part.lookup f.fieldName).getD "" else "")
          (mapGet st.is_dist_param f.fieldName)
          (mapGet st.is_dist_param f.fieldName || mapGet st.is_dirichlet_field f.fieldName)
            = .error e
        ∨ ((∃ r, registerState f.fieldType f.fieldName
              (if mapGet st.is_dist_param f.fieldName then
                (st.dist_params_name_to_mesh_part.lookup f.fieldName).getD "" else "")
              (mapGet st.is_dist_param f.fieldName)
              (mapGet st.is_dist_param f.fieldName || mapGet st.is_dirichlet_field f.fieldName)
                = .ok r)
            ∧ e = .NullReferenceError "ev"
            ∧ fieldManagerChoice = .BUILD_RESID_FM
            ∧ (f.fieldUsage.getD "Input" = "Output" ∨ f.fieldUsage.getD "Input" = "Input-Output")
            ∧ mapGet st.is_dist_param f.fieldName = true
            ∧ mapGet st.is_dirichlet_field f.fieldName = true
            ∧ st.ev = none)) := by
  unfold registerField
  simp only [husage, if_false, mapGet_mapInsert_false]
  split
  · rename_i e2 he
    simp only [he]
    simp
  · rename_i reg nodal_state he
    simp only [he]
    have hex : ∃ r, (Except.ok (reg, nodal_state) : Except Exc (StateRegistration × Bool))
        = .ok r := ⟨_, rfl⟩
    split
    · rename_i e3 hsv
      by_cases ho : f.fieldUsage.getD "Input" = "Output"
          ∨ f.fieldUsage.getD "Input" = "Input-Output"
      · have ho2 : (decide (f.fieldUsage.getD "Input" = "Output")
            || decide (f.fieldUsage.getD "Input" = "Input-Output")) = true := by
          simpa using ho
        simp only [ho2, if_true] at hsv
        obtain ⟨h1, h2, h3, h4, h5⟩ := (saveOutputField_error_iff _ _ _ _ _ _ _ _).1 hsv
        subst h1
        constructor
        · intro h
          have h6 := Except.error.inj h
          subst h6
          exact Or.inr ⟨hex, rfl, h2, ho, h3, h4, h5⟩
        · rintro (h | ⟨_, h, _⟩)
          · exact absurd h (by simp)
          · rw [h]
      · have ho2 : (decide (f.fieldUsage.getD "Input" = "Output")
            || decide (f.fieldUsage.getD "Input" = "Input-Output")) = false := by
          simpa using ho
        simp only [ho2, Bool.false_eq_true, if_false] at hsv
        exact absurd hsv (by simp)
    · rename_i st2 hsv
      constructor
      · intro h
        exact absurd h (by simp)
      · rintro (h | ⟨_, h1, h2, ho, h3, h4, h5⟩)
        · exact absurd h (by simp)
        · have ho2 : (decide (f.fieldUsage.getD "Input" = "Output")
              || decide (f.fieldUsage.getD "Input" = "Input-Output")) = true := by
            simpa using ho
          simp only [ho2, if_true] at hsv
          exact absurd (hsv.symm.trans
            ((saveOutputField_error_iff _ _ _ _ _ _ _ e).2 ⟨h1, h2, h3, h4, h5⟩)) (by simp)

theorem registerField_preserves (fieldManagerChoice : FieldManagerChoice)
    (evaluatedFields : FieldEvaluator → List String) (f : FieldList)
    (st st2 : RegistrationState)
    (h : registerField fieldManagerChoice evaluatedFields f st = .ok st2) (k : String) :
    mapGet st2.is_dist_param k = mapGet st.is_dist_param k
    ∧ mapGet st2.is_dirichlet_field k = mapGet st.is_dirichlet_field k
    ∧ ((st.ev = none ↔ st.evaluators = []) → (st2.ev = none ↔ st2.evaluators = [])) := by
  unfold registerField at h
  by_cases hu : f.fieldUsage.getD "Input" = "Unused"
  · simp only [hu, if_true] at h
    have h2 := Except.ok.inj h
    subst h2
    exact ⟨rfl, rfl, fun hi => hi⟩
  · simp only [hu, if_false] at h
    split at h
    · exact absurd h (by simp)
    · rename_i reg nodal_state hreg
      split at h
      · exact absurd h (by simp)
      · rename_i st3 hsaved
        have h2 := Except.ok.inj h
        have key : mapGet st3.is_dist_param k = mapGet st.is_dist_param k
            ∧ mapGet st3.is_dirichlet_field k = mapGet st.is_dirichlet_field k
            ∧ ((st.ev = none ↔ st.evaluators = []) → (st3.ev = none ↔ st3.evaluators = [])) := by
          split at hsaved
          · obtain ⟨e1, e2, e3⟩ := saveOutputField_ok _ _ _ _ _ _ _ _ hsaved
            rw [e1, e2]
            exact ⟨mapGet_mapInsert_false _ _ _, mapGet_mapInsert_false _ _ _, e3⟩
          · have h3 := Except.ok.inj hsaved
            subst h3
            exact ⟨mapGet_mapInsert_false _ _ _, mapGet_mapInsert_false _ _ _, fun hi => hi⟩
        subst h2
        split
        · obtain ⟨l1, l2, l3⟩ := loadInputField_maps f.fieldName f.fieldName
            (mapGet (mapInsert st.is_dist_param f.fieldName false) f.fieldName
              || mapGet (mapInsert st.is_dirichlet_field f.fieldName false) f.fieldName) st3
          rw [l1, l2]
          exact ⟨key.1, key.2.1, fun _ => l3⟩
        · exact key

theorem registerFields_preserves (fieldManagerChoice : FieldManagerChoice)
    (evaluatedFields : FieldEvaluator → List String) (fields : List FieldList)
    (st st2 : RegistrationState)
    (h : registerFields fieldManagerChoice evaluatedFields fields st = .ok st2) (k : String) :
    mapGet st2.is_dist_param k = mapGet st.is_dist_param k
    ∧ mapGet st2.is_dirichlet_field k = mapGet st.is_dirichlet_field k
    ∧ ((st.ev = none ↔ st.evaluators = []) → (st2.ev = none ↔ st2.evaluators = [])) := by
  induction fields generalizing st with
  | nil =>
    have h2 := Except.ok.inj h
    subst h2
    exact ⟨rfl, rfl, fun hi => hi⟩
  | cons f rest ih =>
    unfold registerFields at h
    cases hf : registerField fieldManagerChoice evaluatedFields f st with
    | error e =>
      rw [hf] at h
      exact absurd h (by simp)
    | ok st1 =>
      rw [hf] at h
      have h1 := registerField_preserves fieldManagerChoice evaluatedFields f st st1 hf k
      have h2 := ih st1 h
      exact ⟨h2.1.trans h1.1, h2.2.1.trans h1.2.1, fun hi => h2.2.2 (h1.2.2 hi)⟩

theorem registerFields_append_error (fieldManagerChoice : FieldManagerChoice)
    (evaluatedFields : FieldEvaluator → List String) (pre post : List FieldList) (f : FieldList)
    (st0 st : RegistrationState) (e : Exc)
    (hpre : registerFields fieldManagerChoice evaluatedFields pre st0 = .ok st)
    (hf : registerField fieldManagerChoice evaluatedFields f st = .error e) :
    registerFields fieldManagerChoice evaluatedFields (pre ++ f :: post) st0 = .error e := by
  induction pre generalizing st0 with
  | nil =>
    have h2 := Except.ok.inj hpre
    subst h2
    simp [registerFields, hf]
  | cons g rest ih =>
    unfold registerFields at hpre
    cases hg : registerField fieldManagerChoice evaluatedFields g st0 with
    | error e2 =>
      rw [hg] at hpre
      exact absurd hpre (by simp)
    | ok st1 =>
      rw [hg] at hpre
      simp only [List.cons_append, registerFields, hg]
      exact ih st1 hpre

theorem mapGet_mapAssign_true_iff (m : List (String × Bool)) (k k2 : String) :
    mapGet (mapAssign m k true) k2 = true ↔ (k2 = k ∨ mapGet m k2 = true) := by
  rw [mapGet_mapAssign_true]
  simp

theorem gatherDistParams_get (distParams : Option (List DistParamEntry))
    (st : RegistrationState) (k : String) :
    (mapGet (gatherDistParams distParams st).is_dist_param k = true
        ↔ (k ∈ distParamNames distParams ∨ mapGet st.is_dist_param k = true))
    ∧ (gatherDistParams distParams st).is_dirichlet_field = st.is_dirichlet_field
    ∧ (gatherDistParams distParams st).ev = st.ev
    ∧ (gatherDistParams distParams st).evaluators = st.evaluators := by
  cases distParams with
  | none => simp [gatherDistParams, distParamNames]
  | some entries =>
    simp only [gatherDistParams, distParamNames, forEach]
    induction entries generalizing st with
    | nil => simp
    | cons entry rest ih =>
      simp only [List.foldl_cons, List.map_cons, List.mem_cons]
      cases entry with
      | sublist name meshPart =>
        have h := ih { st with
          dist_params_name_to_mesh_part :=
            mapAssign st.dist_params_name_to_mesh_part name (meshPart.getD ""),
          is_dist_param := mapAssign st.is_dist_param name true }
        refine ⟨?_, h.2⟩
        rw [h.1, mapGet_mapAssign_true_iff]
        tauto
      | legacy name =>
        have h := ih { st with
          dist_params_name_to_mesh_part :=
            mapAssign st.dist_params_name_to_mesh_part name "",
          is_dist_param := mapAssign st.is_dist_param name true }
        refine ⟨?_, h.2⟩
        rw [h.1, mapGet_mapAssign_true_iff]
        tauto

theorem gatherDirichletFields_get (dbcs : Option (List (String × String)))
    (st : RegistrationState) (k : String) :
    (mapGet (gatherDirichletFields dbcs st).is_dirichlet_field k = true
        ↔ (k ∈ dirichletFieldNames dbcs ∨ mapGet st.is_dirichlet_field k = true))
    ∧ (gatherDirichletFields dbcs st).is_dist_param = st.is_dist_param
    ∧ (gatherDirichletFields dbcs st).ev = st.ev
    ∧ (gatherDirichletFields dbcs st).evaluators = st.evaluators := by
  cases dbcs with
  | none => simp [gatherDirichletFields, dirichletFieldNames]
  | some entries =>
    simp only [gatherDirichletFields, dirichletFieldNames, forEach]
    induction entries generalizing st with
    | nil => simp
    | cons entry rest ih =>
      simp only [List.foldl_cons]
      cases hc : contains entry.1 "prescribe Field"
      · have h := ih st
        simp only [hc, Bool.false_eq_true, if_false]
        refine ⟨?_, h.2⟩
        rw [h.1]
        simp [List.filter_cons, hc]
      · have h := ih { st with is_dirichlet_field := mapAssign st.is_dirichlet_field entry.2 true }
        simp only [hc, if_true]
        refine ⟨?_, h.2⟩
        rw [h.1, mapGet_mapAssign_true_iff]
        simp only [List.filter_cons, hc, if_true, List.map_cons, List.mem_cons]
        tauto

theorem constructEvaluators_error_at (fieldManagerChoice : FieldManagerChoice)
    (evaluatedFields : FieldEvaluator → List String)
    (distParams : Option (List DistParamEntry))
    (dbcs : Option (List (String × String))) (pre post : List FieldList) (f : FieldList)
    (st : RegistrationState) (e : Exc)
    (hpre : registerFields fieldManagerChoice evaluatedFields pre
      (gatherDirichletFields dbcs
        (gatherDistParams distParams ⟨[], [], [], [], [], [], none, []⟩)) = .ok st)
    (hf : registerField fieldManagerChoice evaluatedFields f st = .error e) :
    constructEvaluators fieldManagerChoice evaluatedFields distParams dbcs (pre ++ f :: post)
      = .error e := by
  unfold constructEvaluators
  exact registerFields_append_error fieldManagerChoice evaluatedFields pre post f _ st e hpre hf

theorem registered_isParam_iff (fieldManagerChoice : FieldManagerChoice)
    (evaluatedFields : FieldEvaluator → List String)
    (distParams : Option (List DistParamEntry))
    (dbcs : Option (List (String × String))) (pre : List FieldList)
    (st : RegistrationState) (k : String)
    (hpre : registerFields fieldManagerChoice evaluatedFields pre
      (gatherDirichletFields dbcs
        (gatherDistParams distParams ⟨[], [], [], [], [], [], none, []⟩)) = .ok st) :
    (mapGet st.is_dist_param k = true ↔ k ∈ distParamNames distParams)
    ∧ (mapGet st.is_dirichlet_field k = true ↔ k ∈ dirichletFieldNames dbcs)
    ∧ (st.ev = none ↔ st.evaluators = []) := by
  have h1 := registerFields_preserves fieldManagerChoice evaluatedFields pre _ st hpre k
  have h2 := gatherDirichletFields_get dbcs
    (gatherDistParams distParams ⟨[], [], [], [], [], [], none, []⟩) k
  have h3 := gatherDistParams_get distParams ⟨[], [], [], [], [], [], none, []⟩ k
  refine ⟨?_, ?_, ?_⟩
  · rw [h1.1, h2.2.1, h3.1]
    simp [mapGet]
  · rw [h1.2.1, h2.1, h3.2.1]
    simp [mapGet]
  · apply h1.2.2
    rw [h2.2.2.1, h2.2.2.2, h3.2.2.1, h3.2.2.2]
    simp

/-- C5: in `Hydrology::constructEvaluators`, the processing of a required field
that is not marked "Unused" fails with `InvalidParameterValue` if and only if
its "Field Type" is none of "Elem Scalar", "Node Scalar", "Elem Vector",
"Node Vector"; the routine then ends with that exception. -/
theorem hydrology_field_type_check (fieldManagerChoice : FieldManagerChoice)
    (evaluatedFields : FieldEvaluator → List String)
    (distParams : Option (List DistParamEntry))
    (dbcs : Option (List (String × String))) (pre post : List FieldList) (f : FieldList)
    (st : RegistrationState)
    (hpre : registerFields fieldManagerChoice evaluatedFields pre
      (gatherDirichletFields dbcs
        (gatherDistParams distParams ⟨[], [], [], [], [], [], none, []⟩)) = .ok st)
    (husage : f.fieldUsage.getD "Input" ≠ "Unused") :
    ((∃ msg, registerField fieldManagerChoice evaluatedFields f st
          = .error (.InvalidParameterValue msg))
        ↔ f.fieldType ∉ validFieldTypes)
    ∧ (f.fieldType ∉ validFieldTypes →
        ∃ msg, constructEvaluators fieldManagerChoice evaluatedFields distParams dbcs
            (pre ++ f :: post)
          = .error (.InvalidParameterValue msg)) := by
  have key : (∃ msg, registerField fieldManagerChoice evaluatedFields f st
          = .error (.InvalidParameterValue msg))
        ↔ f.fieldType ∉ validFieldTypes := by
    rw [← registerState_invalidValue_iff f.fieldType f.fieldName
      (if mapGet st.is_dist_param f.fieldName then
        (st.dist_params_name_to_mesh_part.lookup f.fieldName).getD "" else "")
      (mapGet st.is_dist_param f.fieldName)
      (mapGet st.is_dist_param f.fieldName || mapGet st.is_dirichlet_field f.fieldName)]
    constructor
    · rintro ⟨msg, h⟩
      rcases (registerField_error fieldManagerChoice evaluatedFields f st husage _).1 h with
        h2 | ⟨_, h2, _⟩
      · exact ⟨msg, h2⟩
      · exact absurd h2 (by simp)
    · rintro ⟨msg, h⟩
      exact ⟨msg, (registerField_error fieldManagerChoice evaluatedFields f st husage _).2
        (Or.inl h)⟩
  refine ⟨key, fun hbad => ?_⟩
  obtain ⟨msg, h⟩ := key.2 hbad
  exact ⟨msg, constructEvaluators_error_at fieldManagerChoice evaluatedFields distParams dbcs
    pre post f st _ hpre h⟩

/-- C5, at a concrete input: after the node scalar "ice_thickness", a field of
type "Cell Scalar" is refused. -/
theorem hydrology_field_type_check_witness :
    registerFields .BUILD_RESID_FM someEvaluatedFields [thicknessField]
        (gatherDirichletFields someDirichletBCs
          (gatherDistParams someDistParams ⟨[], [], [], [], [], [], none, []⟩))
      = .ok stateAfterThickness
    ∧ (FieldList.mk "surface_height" none "Cell Scalar").fieldUsage.getD "Input" ≠ "Unused"
    ∧ ∃ msg, constructEvaluators .BUILD_RESID_FM someEvaluatedFields someDistParams
        someDirichletBCs
        ([thicknessField] ++ FieldList.mk "surface_height" none "Cell Scalar" :: [])
          = .error (.InvalidParameterValue msg) := by
  have hpre : registerFields .BUILD_RESID_FM someEvaluatedFields [thicknessField]
        (gatherDirichletFields someDirichletBCs
          (gatherDistParams someDistParams ⟨[], [], [], [], [], [], none, []⟩))
      = .ok stateAfterThickness := by
    rfl
  exact ⟨hpre, by decide,
    (hydrology_field_type_check .BUILD_RESID_FM someEvaluatedFields someDistParams
      someDirichletBCs [thicknessField] []
      (FieldList.mk "surface_height" none "Cell Scalar") stateAfterThickness hpre
      (by decide)).2 (by decide)⟩

/-- The sanity check on distributed parameters and Dirichlet fields, and every
failure of one iteration with a `std::logic_error`: for a required field that
is not marked "Unused" and has a valid "Field Type", the iteration fails with
the `std::logic_error` of the check ("... MUST be node scalars") if and only if
the field is a distributed parameter or a prescribed Dirichlet field and its
type is not "Node Scalar"; it fails with an exception that is a
`std::logic_error` if and only if that holds or the field is both a distributed
parameter and a prescribed Dirichlet field, its usage is "Output" or
"Input-Output", the field manager is the residual one and no evaluator has been
registered before (`ev` is null). -/
theorem registerField_logic_error_iff (fieldManagerChoice : FieldManagerChoice)
    (evaluatedFields : FieldEvaluator → List String)
    (distParams : Option (List DistParamEntry))
    (dbcs : Option (List (String × String))) (pre post : List FieldList) (f : FieldList)
    (st : RegistrationState)
    (hpre : registerFields fieldManagerChoice evaluatedFields pre
      (gatherDirichletFields dbcs
        (gatherDistParams distParams ⟨[], [], [], [], [], [], none, []⟩)) = .ok st)
    (husage : f.fieldUsage.getD "Input" ≠ "Unused")
    (hvalid : f.fieldType ∈ validFieldTypes) :
    (registerField fieldManagerChoice evaluatedFields f st = .error (.logic_error nodeScalarMsg)
        ↔ ((f.fieldName ∈ distParamNames distParams ∨ f.fieldName ∈ dirichletFieldNames dbcs)
            ∧ f.fieldType ≠ "Node Scalar"))
    ∧ ((∃ e, registerField fieldManagerChoice evaluatedFields f st = .error e
          ∧ e.isLogicError = true)
        ↔ (((f.fieldName ∈ distParamNames distParams ∨ f.fieldName ∈ dirichletFieldNames dbcs)
              ∧ f.fieldType ≠ "Node Scalar")
            ∨ (f.fieldType = "Node Scalar"
              ∧ f.fieldName ∈ distParamNames distParams
              ∧ f.fieldName ∈ dirichletFieldNames dbcs
              ∧ (f.fieldUsage.getD "Input" = "Output"
                  ∨ f.fieldUsage.getD "Input" = "Input-Output")
              ∧ fieldManagerChoice = .BUILD_RESID_FM
              ∧ st.evaluators = [])))
    ∧ (((f.fieldName ∈ distParamNames distParams ∨ f.fieldName ∈ dirichletFieldNames dbcs)
            ∧ f.fieldType ≠ "Node Scalar") →
        constructEvaluators fieldManagerChoice evaluatedFields distParams dbcs
            (pre ++ f :: post)
          = .error (.logic_error nodeScalarMsg)) := by
  obtain ⟨hp1, hp2, hp3⟩ := registered_isParam_iff fieldManagerChoice evaluatedFields distParams
    dbcs pre st f.fieldName hpre
  have hrf := registerField_error fieldManagerChoice evaluatedFields f st husage
  have hstate : ∀ e, registerState f.fieldType f.fieldName
        (if mapGet st.is_dist_param f.fieldName then
          (st.dist_params_name_to_mesh_part.lookup f.fieldName).getD "" else "")
        (mapGet st.is_dist_param f.fieldName)
        (mapGet st.is_dist_param f.fieldName || mapGet st.is_dirichlet_field f.fieldName)
          = .error e
      ↔ (e = .logic_error nodeScalarMsg
          ∧ (f.fieldName ∈ distParamNames distParams ∨ f.fieldName ∈ dirichletFieldNames dbcs)
          ∧ f.fieldType ≠ "Node Scalar") := by
    intro e
    rw [← hp1, ← hp2]
    unfold registerState
    simp only [validFieldTypes, List.mem_cons, List.mem_singleton, List.not_mem_nil,
      or_false] at hvalid
    rcases hvalid with h | h | h | h <;> rw [h] <;>
      cases mapGet st.is_dist_param f.fieldName <;>
      cases mapGet st.is_dirichlet_field f.fieldName <;>
      simp [eq_comm]
  have hok : f.fieldType = "Node Scalar" → ∃ r, registerState f.fieldType f.fieldName
        (if mapGet st.is_dist_param f.fieldName then
          (st.dist_params_name_to_mesh_part.lookup f.fieldName).getD "" else "")
        (mapGet st.is_dist_param f.fieldName)
        (mapGet st.is_dist_param f.fieldName || mapGet st.is_dirichlet_field f.fieldName)
          = .ok r := by
    intro h
    unfold registerState
    rw [h]
    simp
  have key : registerField fieldManagerChoice evaluatedFields f st
        = .error (.logic_error nodeScalarMsg)
        ↔ ((f.fieldName ∈ distParamNames distParams ∨ f.fieldName ∈ dirichletFieldNames dbcs)
            ∧ f.fieldType ≠ "Node Scalar") := by
    rw [hrf]
    constructor
    · rintro (h | ⟨_, h, _⟩)
      · exact ((hstate _).1 h).2
      · exact absurd h (by simp)
    · intro h
      exact Or.inl ((hstate _).2 ⟨rfl, h⟩)
  refine ⟨key, ?_, fun hbad => ?_⟩
  · constructor
    · rintro ⟨e, he, _⟩
      rcases (hrf e).1 he with h | ⟨⟨r, hr⟩, _, h3, h4, h5, h6, h7⟩
      · exact Or.inl ((hstate e).1 h).2
      · by_cases hns : f.fieldType = "Node Scalar"
        · exact Or.inr ⟨hns, hp1.1 h5, hp2.1 h6, h4, h3, hp3.1 h7⟩
        · exact Or.inl ⟨Or.inl (hp1.1 h5), hns⟩
    · rintro (h | ⟨h1, h2, h3, h4, h5, h6⟩)
      · exact ⟨_, key.2 h, rfl⟩
      · exact ⟨_, (hrf _).2 (Or.inr ⟨hok h1, rfl, h5, h4, hp1.2 h2, hp2.2 h3, hp3.2 h6⟩), rfl⟩
  · exact constructEvaluators_error_at fieldManagerChoice evaluatedFields distParams dbcs
      pre post f st _ hpre (key.2 hbad)

/-- C6 (the code at the failing input): "basal_friction" is listed in
"Distributed Parameters" and prescribed in "Dirichlet BCs", and it is the first
required field, a "Node Scalar" with the usage "Input-Output".  No
`SaveStateField` is made for it, `ev` is still null, and for the residual field
manager `ev->evaluatedFields()` is evaluated all the same: the routine ends with
`NullReferenceError`, a `std::logic_error`, although the type is "Node Scalar".
With the usage "Input", or after a field that has registered an evaluator, the
same field is accepted. -/
theorem hydrology_node_scalar_param_null_evaluator :
    frictionField.fieldUsage.getD "Input" ≠ "Unused"
    ∧ frictionField.fieldType ∈ validFieldTypes
    ∧ frictionField.fieldType = "Node Scalar"
    ∧ frictionField.fieldName ∈ distParamNames someDistParams
    ∧ frictionField.fieldName ∈ dirichletFieldNames frictionDirichletBCs
    ∧ (∀ evaluatedFields : FieldEvaluator → List String,
        constructEvaluators .BUILD_RESID_FM evaluatedFields someDistParams frictionDirichletBCs
            [frictionField]
          = .error (.NullReferenceError "ev"))
    ∧ (Exc.NullReferenceError "ev").isLogicError = true
    ∧ (∃ st, constructEvaluators .BUILD_RESID_FM someEvaluatedFields someDistParams
          frictionDirichletBCs [{ frictionField with fieldUsage := some "Input" }] = .ok st)
    ∧ (∃ st, constructEvaluators .BUILD_RESID_FM someEvaluatedFields someDistParams
          frictionDirichletBCs [thicknessField, frictionField] = .ok st) := by
  refine ⟨by decide, by decide, rfl, by decide, by decide, ?_, rfl, ⟨_, rfl⟩, ⟨_, rfl⟩⟩
  intro evaluatedFields
  rfl

end Hydrology

end FELIX

/-! ## SurfaceCohesiveResidual -/

namespace LCM

open FELIX

namespace SurfaceCohesiveResidual

variable {α : Type} [LinearOrderedField α]

theorem forLoop_succ {σ : Type} (n : Nat) (body : Nat → σ → σ) (s : σ) :
    forLoop (n + 1) body s = body n (forLoop n body s) := by
  simp [forLoop, List.range_succ, List.foldl_append]

theorem writes_comp {D1 D2 : List Nat → Prop} {g : MDField α} {t1 t2 : MDField α → MDField α}
    (h1 : Writes D1 g t1) (h2 : Writes D2 g t2) :
    Writes (fun j => D1 j ∨ D2 j) g (fun f => t2 (t1 f)) := by
  intro f j
  by_cases hD2 : D2 j
  · exact ⟨fun _ => (h2 (t1 f) j).1 hD2, fun hn => absurd (Or.inr hD2) hn⟩
  · constructor
    · rintro (hD1 | hD2b)
      · exact ((h2 (t1 f) j).2 hD2).trans ((h1 f j).1 hD1)
      · exact absurd hD2b hD2
    · intro hn
      exact ((h2 (t1 f) j).2 hD2).trans ((h1 f j).2 (fun hD1 => hn (Or.inl hD1)))

theorem f_plus_eq_sum (ev : SurfaceCohesiveResidual α) (cohesive_traction_ ref_area_ : MDField α)
    (cell bottom_node : Nat) :
    f_plus ev cohesive_traction_ ref_area_ cell bottom_node
      = (∑ pt ∈ Finset.range ev.num_qps_,
            cohesive_traction_ [cell, pt, 0] * ev.ref_values_ [bottom_node, pt]
              * ref_area_ [cell, pt],
         ∑ pt ∈ Finset.range ev.num_qps_,
            cohesive_traction_ [cell, pt, 1] * ev.ref_values_ [bottom_node, pt]
              * ref_area_ [cell, pt],
         ∑ pt ∈ Finset.range ev.num_qps_,
            cohesive_traction_ [cell, pt, 2] * ev.ref_values_ [bottom_node, pt]
              * ref_area_ [cell, pt]) := by
  unfold f_plus
  induction ev.num_qps_ with
  | zero => simp [forLoop]
  | succ n ih =>
    rw [forLoop_succ, ih]
    simp only [Finset.sum_range_succ]

theorem evaluateFields_bottom_node (ev : SurfaceCohesiveResidual α) (workset : Workset)
    (cohesive_traction_ ref_area_ force_ : MDField α) (cell a : Nat)
    (hcell : cell < workset.numCells) (ha : a < ev.num_surf_nodes_) :
    evaluateFields ev workset cohesive_traction_ ref_area_ force_ [cell, a, 0]
        = -(f_plus ev cohesive_traction_ ref_area_ cell a).1
    ∧ evaluateFields ev workset cohesive_traction_ ref_area_ force_ [cell, a, 1]
        = -(f_plus ev cohesive_traction_ ref_area_ cell a).2.1
    ∧ evaluateFields ev workset cohesive_traction_ ref_area_ force_ [cell, a, 2]
        = -(f_plus ev cohesive_traction_ ref_area_ cell a).2.2 := by
  let comp : Nat → α × α × α → α := fun i t => if i = 0 then t.1 else if i = 1 then t.2.1 else t.2.2
  let g : MDField α := fun j =>
    if j.getD 1 0 < ev.num_surf_nodes_ then
      -(comp (j.getD 2 0) (f_plus ev cohesive_traction_ ref_area_ (j.getD 0 0) (j.getD 1 0)))
    else
      comp (j.getD 2 0)
        (f_plus ev cohesive_traction_ ref_area_ (j.getD 0 0) (j.getD 1 0 - ev.num_surf_nodes_))
  have hbot : ∀ c b i, b < ev.num_surf_nodes_ →
      g [c, b, i] = -(comp i (f_plus ev cohesive_traction_ ref_area_ c b)) := by
    intro c b i hb
    simp [g, hb]
  have htop : ∀ c b i,
      g [c, b + ev.num_surf_nodes_, i] = comp i (f_plus ev cohesive_traction_ ref_area_ c b) := by
    intro c b i
    simp [g]
  have W := writes_forLoop g
    (fun c j => ∃ b, b < ev.num_surf_nodes_ ∧
      (((((j = [c, b, 0] ∨ j = [c, b, 1]) ∨ j = [c, b, 2])
        ∨ j = [c, b + ev.num_surf_nodes_, 0]) ∨ j = [c, b + ev.num_surf_nodes_, 1])
        ∨ j = [c, b + ev.num_surf_nodes_, 2]))
    (fun c => forLoop ev.num_surf_nodes_ (fun bottom_node force_ =>
      let top_node := bottom_node + ev.num_surf_nodes_
      let f := f_plus ev cohesive_traction_ ref_area_ c bottom_node
      (((((force_.set [c, bottom_node, 0] (-f.1)).set [c, bottom_node, 1] (-f.2.1)).set
          [c, bottom_node, 2] (-f.2.2)).set
          [c, top_node, 0] f.1).set [c, top_node, 1] f.2.1).set [c, top_node, 2] f.2.2))
    workset.numCells
    (fun c _ => writes_forLoop g
      (fun b j => ((((j = [c, b, 0] ∨ j = [c, b, 1]) ∨ j = [c, b, 2])
        ∨ j = [c, b + ev.num_surf_nodes_, 0]) ∨ j = [c, b + ev.num_surf_nodes_, 1])
        ∨ j = [c, b + ev.num_surf_nodes_, 2])
      _ ev.num_surf_nodes_
      (fun b hb =>
        writes_comp (writes_comp (writes_comp (writes_comp (writes_comp
          (writes_set g [c, b, 0] _ (by rw [hbot c b 0 hb]; rfl))
          (writes_set g [c, b, 1] _ (by rw [hbot c b 1 hb]; rfl)))
          (writes_set g [c, b, 2] _ (by rw [hbot c b 2 hb]; rfl)))
          (writes_set g [c, b + ev.num_surf_nodes_, 0] _ (by rw [htop c b 0]; rfl)))
          (writes_set g [c, b + ev.num_surf_nodes_, 1] _ (by rw [htop c b 1]; rfl)))
          (writes_set g [c, b + ev.num_surf_nodes_, 2] _ (by rw [htop c b 2]; rfl))))
  refine ⟨?_, ?_, ?_⟩
  · have h := (W force_ [cell, a, 0]).1 ⟨cell, hcell, a, ha, by simp⟩
    exact h.trans (by rw [hbot cell a 0 ha]; rfl)
  · have h := (W force_ [cell, a, 1]).1 ⟨cell, hcell, a, ha, by simp⟩
    exact h.trans (by rw [hbot cell a 1 ha]; rfl)
  · have h := (W force_ [cell, a, 2]).1 ⟨cell, hcell, a, ha, by simp⟩
    exact h.trans (by rw [hbot cell a 2 ha]; rfl)

/-- C11: `SurfaceCohesiveResidual` computes, for every cell of the workset, every
bottom node a < num_surf_nodes and every component i in {0,1,2},
force(cell, a, i) = - sum over the quadrature points pt of
cohesive_traction(cell, pt, i) * shape_function(a, pt) * ref_area(cell, pt). -/
theorem surfaceCohesiveResidual_bottom_force (ev : SurfaceCohesiveResidual α)
    (workset : Workset) (cohesive_traction_ ref_area_ force_ : MDField α) (cell a i : Nat)
    (hcell : cell < workset.numCells) (ha : a < ev.num_surf_nodes_) (hi : i < 3) :
    evaluateFields ev workset cohesive_traction_ ref_area_ force_ [cell, a, i]
      = -∑ pt ∈ Finset.range ev.num_qps_,
          cohesive_traction_ [cell, pt, i] * ev.ref_values_ [a, pt] * ref_area_ [cell, pt] := by
  have h := evaluateFields_bottom_node ev workset cohesive_traction_ ref_area_ force_ cell a
    hcell ha
  rw [f_plus_eq_sum] at h
  interval_cases i
  · exact h.1
  · exact h.2.1
  · exact h.2.2

/-- C11, at a concrete input: one cell with two bottom nodes and two quadrature
points, the traction (1, 2, 3) and the reference area 2. -/
theorem surfaceCohesiveResidual_bottom_force_witness :
    (0 < oneCellWorkset.numCells ∧ 1 < (ctor cohesiveParams cohesiveLayouts).num_surf_nodes_
      ∧ 2 < 3)
    ∧ evaluateFields (ctor cohesiveParams cohesiveLayouts) oneCellWorkset cohesiveTraction
          (fun _ => 2) (fun _ => 0) [0, 1, 2]
        = -∑ pt ∈ Finset.range (ctor cohesiveParams cohesiveLayouts).num_qps_,
            cohesiveTraction [0, pt, 2] * (ctor cohesiveParams cohesiveLayouts).ref_values_ [1, pt]
              * (fun _ => (2 : ℚ)) [0, pt] :=
  ⟨⟨by decide, by decide, by decide⟩,
   surfaceCohesiveResidual_bottom_force (ctor cohesiveParams cohesiveLayouts) oneCellWorkset
     cohesiveTraction (fun _ => 2) (fun _ => 0) 0 1 2 (by decide) (by decide) (by decide)⟩

end SurfaceCohesiveResidual

end LCM

/-! ## BasalFrictionCoefficient: two calls of the cell path -/

namespace FELIX

theorem updates_forLoop {α : Type} (u : List Nat → α → α) (D : Nat → List Nat → Prop)
    (body : Nat → MDField α → MDField α) (n : Nat)
    (h : ∀ i, i < n → Updates (D i) u (body i))
    (hdisj : ∀ i k j, i < n → k < n → D i j → D k j → i = k) :
    Updates (fun j => ∃ i, i < n ∧ D i j) u (forLoop n body) := by
  induction n with
  | zero =>
    intro f j
    simp [forLoop]
  | succ n ih =>
    have ih2 := ih (fun i hi => h i (Nat.lt_succ_of_lt hi))
      (fun i k j hi hk => hdisj i k j (Nat.lt_succ_of_lt hi) (Nat.lt_succ_of_lt hk))
    have hn := h n (Nat.lt_succ_self n)
    intro f j
    have hstep : forLoop (n + 1) body f = body n (forLoop n body f) := by
      simp [forLoop, List.range_succ, List.foldl_append]
    rw [hstep]
    by_cases hD : D n j
    · have hnot : ¬ ∃ i, i < n ∧ D i j := by
        rintro ⟨i, hi, hDi⟩
        have := hdisj i n j (Nat.lt_succ_of_lt hi) (Nat.lt_succ_self n) hDi hD
        omega
      constructor
      · intro _
        rw [(hn _ j).1 hD, (ih2 f j).2 hnot]
      · intro hno
        exact absurd ⟨n, Nat.lt_succ_self n, hD⟩ hno
    · rw [(hn _ j).2 hD]
      constructor
      · rintro ⟨i, hi, hDi⟩
        have hi2 : i < n := by
          rcases Nat.lt_succ_iff_lt_or_eq.1 hi with h1 | h1
          · exact h1
          · rw [h1] at hDi
            exact absurd hDi hD
        exact (ih2 f j).1 ⟨i, hi2, hDi⟩
      · intro hno
        exact (ih2 f j).2 (fun ⟨i, hi, hDi⟩ => hno ⟨i, Nat.lt_succ_of_lt hi, hDi⟩)

theorem writes_cellLoop {α : Type} (val : Nat → Nat → α) (n0 n1 : Nat) :
    Writes (cellDomain n0 n1) (fun j => val (j.getD 0 0) (j.getD 1 0))
      (forLoop n0 (fun c => forLoop n1 (fun i t => t.set [c, i] (val c i)))) :=
  writes_forLoop (fun j => val (j.getD 0 0) (j.getD 1 0))
    (fun c j => ∃ i, i < n1 ∧ j = [c, i])
    (fun c => forLoop n1 (fun i t => t.set [c, i] (val c i))) n0
    (fun c _ => writes_forLoop (fun j => val (j.getD 0 0) (j.getD 1 0)) (fun i j => j = [c, i])
      (fun i t => t.set [c, i] (val c i)) n1
      (fun i _ => writes_set (fun j => val (j.getD 0 0) (j.getD 1 0)) [c, i] (val c i) rfl))

theorem updates_cellLoop {α : Type} (upd : Nat → Nat → α → α) (n0 n1 : Nat) :
    Updates (cellDomain n0 n1) (fun j => upd (j.getD 0 0) (j.getD 1 0))
      (forLoop n0 (fun c => forLoop n1 (fun i t => t.set [c, i] (upd c i (t [c, i]))))) := by
  have hset : ∀ c i, Updates (fun j => j = [c, i]) (fun j => upd (j.getD 0 0) (j.getD 1 0))
      (fun t : MDField α => t.set [c, i] (upd c i (t [c, i]))) := by
    intro c i f j
    constructor
    · intro hj
      subst hj
      simp [MDField.set]
    · intro hj
      simp [MDField.set, hj]
  exact updates_forLoop (fun j => upd (j.getD 0 0) (j.getD 1 0))
    (fun c j => ∃ i, i < n1 ∧ j = [c, i])
    (fun c => forLoop n1 (fun i t => t.set [c, i] (upd c i (t [c, i])))) n0
    (fun c _ => updates_forLoop (fun j => upd (j.getD 0 0) (j.getD 1 0)) (fun i j => j = [c, i])
      (fun i t => t.set [c, i] (upd c i (t [c, i]))) n1
      (fun i _ => hset c i)
      (fun i k j _ _ hi hk => by
        rw [hi] at hk
        simpa using hk))
    (fun c k j _ _ hc hk => by
      obtain ⟨i, _, hi⟩ := hc
      obtain ⟨i2, _, hi2⟩ := hk
      rw [hi] at hi2
      simp at hi2
      exact hi2.1)

theorem writes_congr_fun {α : Type} {D : List Nat → Prop} {g : MDField α}
    {t t2 : MDField α → MDField α} (h : Writes D g t) (ht : ∀ b, t2 b = t b) :
    Writes D g t2 := by
  intro f j
  rw [ht f]
  exact h f j

namespace BasalFrictionCoefficient

variable {α : Type} [LinearOrderedField α]

theorem stereographicLoop_updates (ev : BasalFrictionCoefficient α) (fd : BasalFrictionFields α)
    (n0 n1 : Nat) :
    Updates (cellDomain n0 n1)
      (fun j x =>
        x * (4 * ev.R2 / (4 * ev.R2
              + (fd.coordVec ([j.getD 0 0, j.getD 1 0] ++ [0]) - ev.x_0)
                * (fd.coordVec ([j.getD 0 0, j.getD 1 0] ++ [0]) - ev.x_0)
              + (fd.coordVec ([j.getD 0 0, j.getD 1 0] ++ [1]) - ev.y_0)
                * (fd.coordVec ([j.getD 0 0, j.getD 1 0] ++ [1]) - ev.y_0))
            * (4 * ev.R2 / (4 * ev.R2
              + (fd.coordVec ([j.getD 0 0, j.getD 1 0] ++ [0]) - ev.x_0)
                * (fd.coordVec ([j.getD 0 0, j.getD 1 0] ++ [0]) - ev.x_0)
              + (fd.coordVec ([j.getD 0 0, j.getD 1 0] ++ [1]) - ev.y_0)
                * (fd.coordVec ([j.getD 0 0, j.getD 1 0] ++ [1]) - ev.y_0)))))
      (forLoop n0 (fun cell => forLoop n1 (fun ipt b => stereographicScale ev fd [cell, ipt] b))) :=
  updates_cellLoop (fun c i x =>
        x * (4 * ev.R2 / (4 * ev.R2
              + (fd.coordVec ([c, i] ++ [0]) - ev.x_0) * (fd.coordVec ([c, i] ++ [0]) - ev.x_0)
              + (fd.coordVec ([c, i] ++ [1]) - ev.y_0) * (fd.coordVec ([c, i] ++ [1]) - ev.y_0))
            * (4 * ev.R2 / (4 * ev.R2
              + (fd.coordVec ([c, i] ++ [0]) - ev.x_0) * (fd.coordVec ([c, i] ++ [0]) - ev.x_0)
              + (fd.coordVec ([c, i] ++ [1]) - ev.y_0) * (fd.coordVec ([c, i] ++ [1]) - ev.y_0)))))
    n0 n1

theorem evaluateFieldsCell_constant_entry (fn : ScalarFns α) (ev : BasalFrictionCoefficient α)
    (workset : Workset) (fd : BasalFrictionFields α) (mu lambda power : α)
    (hty : ev.beta_type = .GIVEN_CONSTANT) (hst : ev.use_stereographic_map = true)
    (cell ipt : Nat) (hcell : cell < workset.numCells)
    (hipt : ipt < (if ev.nodal then ev.numNodes else ev.numQPs)) :
    evaluateFieldsCell fn ev workset fd mu lambda power [cell, ipt]
      = fd.beta [cell, ipt]
        * (4 * ev.R2 / (4 * ev.R2
              + (fd.coordVec [cell, ipt, 0] - ev.x_0) * (fd.coordVec [cell, ipt, 0] - ev.x_0)
              + (fd.coordVec [cell, ipt, 1] - ev.y_0) * (fd.coordVec [cell, ipt, 1] - ev.y_0))
            * (4 * ev.R2 / (4 * ev.R2
              + (fd.coordVec [cell, ipt, 0] - ev.x_0) * (fd.coordVec [cell, ipt, 0] - ev.x_0)
              + (fd.coordVec [cell, ipt, 1] - ev.y_0) * (fd.coordVec [cell, ipt, 1] - ev.y_0)))) := by
  have hU := stereographicLoop_updates ev fd workset.numCells
    (if ev.nodal then ev.numNodes else ev.numQPs)
  have h := (hU fd.beta [cell, ipt]).1 ⟨cell, hcell, ipt, hipt, rfl⟩
  simp only [evaluateFieldsCell, hty, hst, if_true]
  exact h

theorem ctor_stereoEv :
    ctor false ratFns stereoParams cellLayouts frictionSelf = .ok stereoEv := by
  have h1 : betaTypeString
      ({ zeroBetaOnFloatingIce := none, type := some "Given Constant",
         constantGivenBetaValue := some 1, betaGivenVariableName := some "basal_friction",
         distributedBedRoughness := none, useLogScalarParameters := none } : BetaList ℚ)
      = "GIVEN CONSTANT" := by decide
  have h2 : ratFns.pow 1 2 = 1 := by norm_num [ratFns, powQ]
  simp [ctor, stereoParams, frictionParams, cellLayouts, frictionSelf, selectBetaType,
    finishCtor, stereoEv, dimension, h1, h2, getEntry, bind, Except.bind, pure, Except.pure]

/-- C12 (the code at the failing input): the cell evaluator built from
"Given Constant" with the stereographic map holds beta = 1 after
`postRegistrationSetup`; at a point with coordinates (2, 0) and R = 1 the factor
h*h is 1/4, and one call of `evaluateFields` leaves beta = 1/4 there while two
calls in a row leave 1/16. -/
theorem basalFriction_constant_beta_rescaled_each_call :
    ctor false ratFns stereoParams cellLayouts frictionSelf = .ok stereoEv
    ∧ (postRegistrationSetup stereoEv stereoFields).beta [0, 0] = 1
    ∧ ∃ beta1 beta2,
        evaluateFields false ratFns stereoEv oneCellWorkset
            (postRegistrationSetup stereoEv stereoFields) ⟨0, 0, 0⟩ = .ok beta1
        ∧ evaluateFieldsTwice false ratFns stereoEv oneCellWorkset
            (postRegistrationSetup stereoEv stereoFields) ⟨0, 0, 0⟩ = .ok beta2
        ∧ beta1 [0, 0] = 1 / 4 ∧ beta2 [0, 0] = 1 / 16 := by
  have hr : ∀ fd : BasalFrictionFields ℚ,
      readParameters ratFns stereoEv fd ⟨0, 0, 0⟩ = .ok ⟨0, 0, 0⟩ := by
    intro fd
    simp [readParameters, stereoEv, frictionSelf]
  have h1 : ∀ fd : BasalFrictionFields ℚ,
      evaluateFields false ratFns stereoEv oneCellWorkset fd ⟨0, 0, 0⟩
        = .ok (evaluateFieldsCell ratFns stereoEv oneCellWorkset fd 0 0 0) := by
    intro fd
    simp only [evaluateFields, hr fd, Bool.false_eq_true, if_false]
  have he : ∀ fd : BasalFrictionFields ℚ,
      fd.coordVec = stereoFields.coordVec →
      evaluateFieldsCell ratFns stereoEv oneCellWorkset fd 0 0 0 [0, 0] = fd.beta [0, 0] * (1 / 4) := by
    intro fd hc
    rw [evaluateFieldsCell_constant_entry ratFns stereoEv oneCellWorkset fd 0 0 0 rfl rfl 0 0
      (by decide) (by decide), hc]
    norm_num [stereoEv, frictionSelf, stereoFields]
  have hb1 : evaluateFieldsCell ratFns stereoEv oneCellWorkset
      (postRegistrationSetup stereoEv stereoFields) 0 0 0 [0, 0] = 1 / 4 := by
    rw [he (postRegistrationSetup stereoEv stereoFields) rfl]
    norm_num [postRegistrationSetup, stereoEv, frictionSelf]
  refine ⟨ctor_stereoEv, rfl,
    evaluateFieldsCell ratFns stereoEv oneCellWorkset
      (postRegistrationSetup stereoEv stereoFields) 0 0 0,
    evaluateFieldsCell ratFns stereoEv oneCellWorkset
      { postRegistrationSetup stereoEv stereoFields with
        beta := evaluateFieldsCell ratFns stereoEv oneCellWorkset
          (postRegistrationSetup stereoEv stereoFields) 0 0 0 } 0 0 0,
    h1 _, ?_, hb1, ?_⟩
  · simp only [evaluateFieldsTwice, h1]
  · rw [he { postRegistrationSetup stereoEv stereoFields with
        beta := evaluateFieldsCell ratFns stereoEv oneCellWorkset
          (postRegistrationSetup stereoEv stereoFields) 0 0 0 } rfl]
    simp only []
    rw [hb1]
    norm_num

theorem setAccumulate (n : Nat) (idx : List Nat) (c : Nat → α) (b0 : MDField α) :
    forLoop n (fun node b => b.set idx (b idx + c node)) b0
      = b0.set idx (forLoop n (fun node acc => acc + c node) (b0 idx)) := by
  induction n with
  | zero =>
    funext j
    by_cases hj : j = idx
    · simp [forLoop, MDField.set, hj]
    · simp [forLoop, MDField.set, hj]
  | succ n ih =>
    have h1 : forLoop (n + 1) (fun node b => b.set idx (b idx + c node)) b0
        = (forLoop n (fun node b => b.set idx (b idx + c node)) b0).set idx
            (forLoop n (fun node b => b.set idx (b idx + c node)) b0 idx + c n) := by
      simp [forLoop, List.range_succ, List.foldl_append]
    have h2 : forLoop (n + 1) (fun node acc => acc + c node) (b0 idx)
        = forLoop n (fun node acc => acc + c node) (b0 idx) + c n := by
      simp [forLoop, List.range_succ, List.foldl_append]
    rw [h1, h2, ih]
    funext j
    by_cases hj : j = idx
    · simp [MDField.set, hj]
    · simp [MDField.set, hj]

theorem cellSwitch_writes (fn : ScalarFns α) (ev : BasalFrictionCoefficient α)
    (workset : Workset) (fd : BasalFrictionFields α) (mu lambda power : α)
    (hty : ev.beta_type ≠ .GIVEN_CONSTANT) :
    ∃ g : MDField α,
      Writes (cellDomain workset.numCells (if ev.nodal then ev.numNodes else ev.numQPs)) g
        (fun b => evaluateFieldsCell fn { ev with use_stereographic_map := false } workset
          { fd with beta := b } mu lambda power) := by
  cases hbt : ev.beta_type with
  | GIVEN_CONSTANT => exact absurd hbt hty
  | GIVEN_FIELD =>
    refine ⟨_, writes_congr_fun (writes_cellLoop (fun c i => fd.beta_given_field [c, i]) _ _) ?_⟩
    intro b
    simp only [evaluateFieldsCell, hbt, Bool.false_eq_true, if_false]
  | EXP_GIVEN_FIELD =>
    refine ⟨_, writes_congr_fun
      (writes_cellLoop (fun c i => fn.exp (fd.beta_given_field [c, i])) _ _) ?_⟩
    intro b
    simp only [evaluateFieldsCell, hbt, Bool.false_eq_true, if_false]
  | GAL_PROJ_EXP_GIVEN_FIELD =>
    refine ⟨_, writes_congr_fun
      (writes_cellLoop (fun c i => forLoop ev.numNodes (fun node acc =>
        acc + fn.exp (fd.beta_given_field [c, node]) * fd.BF [c, node, i]) 0) _ _) ?_⟩
    intro b
    simp only [evaluateFieldsCell, hbt, Bool.false_eq_true, if_false]
    have hbody : ∀ c i (t : MDField α),
        forLoop ev.numNodes (fun node b =>
            b.set [c, i] (b [c, i] + fn.exp (fd.beta_given_field [c, node]) * fd.BF [c, node, i]))
          (t.set [c, i] 0)
        = t.set [c, i] (forLoop ev.numNodes (fun node acc =>
            acc + fn.exp (fd.beta_given_field [c, node]) * fd.BF [c, node, i]) 0) := by
      intro c i t
      rw [setAccumulate]
      funext j
      by_cases hj : j = [c, i]
      · simp [MDField.set, hj]
      · simp [MDField.set, hj]
    simp only [hbody]
  | POWER_LAW =>
    refine ⟨_, writes_congr_fun
      (writes_cellLoop (fun c i => mu * fd.N [c, i] * fn.pow (fd.u_norm [c, i]) power) _ _) ?_⟩
    intro b
    simp only [evaluateFieldsCell, hbt, Bool.false_eq_true, if_false]
  | REGULARIZED_COULOMB =>
    cases hd : ev.distributedLambda <;> cases hl : ev.logParameters
    · refine ⟨_, writes_congr_fun (writes_cellLoop (fun c i =>
        coulombCell fn fd mu power lambda (max (fd.N [c, i]) 0) c i) _ _) ?_⟩
      intro b
      simp only [evaluateFieldsCell, hbt, hd, hl, Bool.false_eq_true, if_false]
      rfl
    · refine ⟨_, writes_congr_fun (writes_cellLoop (fun c i =>
        coulombCell fn fd mu power lambda (fn.exp (fd.N [c, i])) c i) _ _) ?_⟩
      intro b
      simp only [evaluateFieldsCell, hbt, hd, hl, Bool.false_eq_true, if_false, if_true]
      rfl
    · refine ⟨_, writes_congr_fun (writes_cellLoop (fun c i =>
        coulombCell fn fd mu power (fd.lambdaField [c, i]) (max (fd.N [c, i]) 0) c i) _ _) ?_⟩
      intro b
      simp only [evaluateFieldsCell, hbt, hd, hl, Bool.false_eq_true, if_false, if_true]
      rfl
    · refine ⟨_, writes_congr_fun (writes_cellLoop (fun c i =>
        coulombCell fn fd mu power (fd.lambdaField [c, i]) (fn.exp (fd.N [c, i])) c i) _ _) ?_⟩
      intro b
      simp only [evaluateFieldsCell, hbt, hd, hl, Bool.false_eq_true, if_false, if_true]
      rfl

theorem evaluateFieldsCell_split (fn : ScalarFns α) (ev : BasalFrictionCoefficient α)
    (workset : Workset) (fd : BasalFrictionFields α) (mu lambda power : α) :
    evaluateFieldsCell fn ev workset fd mu lambda power
      = if ev.use_stereographic_map then
          forLoop workset.numCells (fun cell =>
            forLoop (if ev.nodal then ev.numNodes else ev.numQPs)
              (fun ipt b => stereographicScale ev fd [cell, ipt] b))
            (evaluateFieldsCell fn { ev with use_stereographic_map := false } workset fd
              mu lambda power)
        else
          evaluateFieldsCell fn { ev with use_stereographic_map := false } workset fd
            mu lambda power := by
  cases hs : ev.use_stereographic_map
  · simp only [evaluateFieldsCell, hs, Bool.false_eq_true, if_false]
  · simp only [evaluateFieldsCell, hs, Bool.false_eq_true, if_false, if_true]

theorem evaluateFieldsCell_twice (fn : ScalarFns α) (ev : BasalFrictionCoefficient α)
    (workset : Workset) (fd : BasalFrictionFields α) (mu lambda power : α)
    (h : ev.beta_type ≠ .GIVEN_CONSTANT ∨ ev.use_stereographic_map = false) :
    evaluateFieldsCell fn ev workset
        { fd with beta := evaluateFieldsCell fn ev workset fd mu lambda power } mu lambda power
      = evaluateFieldsCell fn ev workset fd mu lambda power := by
  by_cases hty : ev.beta_type = .GIVEN_CONSTANT
  · have hs : ev.use_stereographic_map = false := by
      rcases h with h | h
      · exact absurd hty h
      · exact h
    simp only [evaluateFieldsCell, hty, hs, Bool.false_eq_true, if_false]
  · obtain ⟨g, W⟩ := cellSwitch_writes fn ev workset fd mu lambda power hty
    have hT : ∀ x : MDField α,
        (∀ j, ¬ cellDomain workset.numCells (if ev.nodal then ev.numNodes else ev.numQPs) j →
          x j = evaluateFieldsCell fn { ev with use_stereographic_map := false } workset fd
            mu lambda power j) →
        evaluateFieldsCell fn { ev with use_stereographic_map := false } workset
            { fd with beta := x } mu lambda power
          = evaluateFieldsCell fn { ev with use_stereographic_map := false } workset fd
            mu lambda power := by
      intro x hx
      funext j
      by_cases hD : cellDomain workset.numCells (if ev.nodal then ev.numNodes else ev.numQPs) j
      · exact ((W x j).1 hD).trans ((W fd.beta j).1 hD).symm
      · exact ((W x j).2 hD).trans (hx j hD)
    rw [evaluateFieldsCell_split fn ev workset
      { fd with beta := evaluateFieldsCell fn ev workset fd mu lambda power },
      evaluateFieldsCell_split fn ev workset fd]
    cases hs : ev.use_stereographic_map
    · simp only [Bool.false_eq_true, if_false]
      exact hT _ (fun j _ => rfl)
    · simp only [if_true]
      have hU := stereographicLoop_updates ev fd workset.numCells
        (if ev.nodal then ev.numNodes else ev.numQPs)
      have hT2 := hT (forLoop workset.numCells (fun cell =>
            forLoop (if ev.nodal then ev.numNodes else ev.numQPs)
              (fun ipt b => stereographicScale ev fd [cell, ipt] b))
            (evaluateFieldsCell fn { ev with use_stereographic_map := false } workset fd
              mu lambda power)) (fun j hD => (hU _ j).2 hD)
      exact congrArg _ hT2

/-- The cell path of `evaluateFields` called twice in a row leaves what one call
leaves, for every law and option except a given constant beta combined with the
stereographic map. -/
theorem evaluateFields_cell_twice (fn : ScalarFns α) (ev : BasalFrictionCoefficient α)
    (workset : Workset) (fd : BasalFrictionFields α) (init : CoulombLocals α)
    (h : ev.beta_type ≠ .GIVEN_CONSTANT ∨ ev.use_stereographic_map = false) :
    evaluateFieldsTwice false fn ev workset fd init
      = evaluateFields false fn ev workset fd init := by
  have hr : ∀ b : MDField α,
      readParameters fn ev { fd with beta := b } init = readParameters fn ev fd init :=
    fun _ => rfl
  unfold evaluateFieldsTwice
  cases he : evaluateFields false fn ev workset fd init with
  | error e => rfl
  | ok beta1 =>
    simp only []
    unfold evaluateFields at he ⊢
    rw [hr]
    cases hp : readParameters fn ev fd init with
    | error e =>
      rw [hp] at he
      exact absurd he (by simp)
    | ok l =>
      rw [hp] at he
      simp only [Bool.false_eq_true, if_false] at he ⊢
      have hb := Except.ok.inj he
      subst hb
      rw [evaluateFieldsCell_twice fn ev workset fd l.mu l.lambda l.power h]

end BasalFrictionCoefficient

end FELIX
